import Mathlib

/-!
Verification of the adaptive real-time rendering pipeline of the music
visualizer: the performance monitor (frame-budget tracking, rolling FPS
statistics, automatic quality adjustment), the LOD manager (quality-level
table, particle/detail scaling, update gating), the base-visualization
update/dispose contract, and the generic object pool.

The development is a shallow embedding of `src/renderer/utils/performance-monitor.ts`
(PerformanceMonitor and LodManager), `src/renderer/visualization/base-visualization.ts`
(BaseVisualization) and the object-pool module (`Pool`).  JavaScript numbers are
modelled as exact rationals (ℚ); `Math.floor`/`Math.ceil` become `Int.floor`/`Int.ceil`.
`Math.sqrt` (used only for the FPS standard deviation) is threaded through as an
abstract function parameter `sqrtQ : ℚ → ℚ` so that the development stays
executable; theorems that depend on actual square-root behaviour take the
needed properties of `sqrtQ` as hypotheses.  Wall-clock readings
(`performance.now()`), the measured FPS value, the platform memory API and the
renderer draw-call counters are environmental inputs and are passed to each
operation explicitly.
-/

namespace MusicViz

/-! ### LOD level table (`LodLevel`, `DEFAULT_LOD_LEVELS`) -/

/-- Shadow quality as in the `LodLevel` interface. -/
inductive ShadowQuality
  | off
  | low
  | medium
  | high
deriving DecidableEq, Repr

/-- One entry of the LOD table (`LodLevel` interface). -/
structure LodLevel where
  level : ℕ
  name : String
  particleCount : ℚ
  geometryDetail : ℚ
  textureSize : ℚ
  shadowQuality : ShadowQuality
  postProcessingEnabled : Bool
  effectComplexity : ℚ
  maxObjects : ℕ
  updateFrequency : ℕ
deriving DecidableEq, Repr

/-- The default 5-level LOD table (`DEFAULT_LOD_LEVELS`). -/
def DEFAULT_LOD_LEVELS : List LodLevel :=
  [ { level := 0, name := "Very Low", particleCount := 100, geometryDetail := 2/10,
      textureSize := 25/100, shadowQuality := .off, postProcessingEnabled := false,
      effectComplexity := 1/10, maxObjects := 10, updateFrequency := 5 },
    { level := 1, name := "Low", particleCount := 300, geometryDetail := 4/10,
      textureSize := 5/10, shadowQuality := .off, postProcessingEnabled := false,
      effectComplexity := 3/10, maxObjects := 30, updateFrequency := 3 },
    { level := 2, name := "Medium", particleCount := 800, geometryDetail := 6/10,
      textureSize := 75/100, shadowQuality := .low, postProcessingEnabled := true,
      effectComplexity := 5/10, maxObjects := 100, updateFrequency := 2 },
    { level := 3, name := "High", particleCount := 1500, geometryDetail := 9/10,
      textureSize := 1, shadowQuality := .medium, postProcessingEnabled := true,
      effectComplexity := 75/100, maxObjects := 250, updateFrequency := 1 },
    { level := 4, name := "Ultra", particleCount := 3000, geometryDetail := 11/10,
      textureSize := 1, shadowQuality := .high, postProcessingEnabled := true,
      effectComplexity := 1, maxObjects := 500, updateFrequency := 1 } ]

/-- Placeholder level used only to totalize list indexing (`levels[currentLevel]`);
the invariant `currentLevel < levels.length` keeps it unreachable. -/
def dummyLodLevel : LodLevel :=
  { level := 0, name := "", particleCount := 0, geometryDetail := 0, textureSize := 0,
    shadowQuality := .off, postProcessingEnabled := false, effectComplexity := 0,
    maxObjects := 0, updateFrequency := 1 }

/-! ### Renderer settings touched by `applyRendererSettings` -/

/-- `THREE.BasicShadowMap` / `THREE.PCFShadowMap` / `THREE.PCFSoftShadowMap`. -/
inductive ShadowMapType
  | basicShadowMap
  | pcfShadowMap
  | pcfSoftShadowMap
deriving DecidableEq, Repr

/-- The slice of `THREE.WebGLRenderer` state that `LodManager.applyRendererSettings`
mutates: shadow-map enablement and type, the factor applied to
`window.devicePixelRatio` in `setPixelRatio`, and whether `getMaxAnisotropy`
has been overridden to return 1. -/
structure RendererState where
  shadowMapEnabled : Bool
  shadowMapType : ShadowMapType
  pixelRatioFactor : ℚ
  anisotropyCappedAtOne : Bool
deriving DecidableEq, Repr

/-- Renderer state as created by three.js defaults (shadow map off, PCF, full
pixel ratio, anisotropy untouched). -/
def initRenderer : RendererState :=
  { shadowMapEnabled := false, shadowMapType := .pcfShadowMap,
    pixelRatioFactor := 1, anisotropyCappedAtOne := false }

/-! ### LodManager state and operations -/

/-- Mutable state of a `LodManager` instance. -/
structure LodState where
  levels : List LodLevel
  currentLevel : ℕ
  frameCounter : ℕ
  dynamicUpdateFrequency : Bool
  distanceScalingEnabled : Bool
  importanceBasedLod : Bool
  importantObjects : Finset ℕ
  adaptiveDistance : ℚ
  renderer : RendererState
deriving DecidableEq

/-- `this.levels[this.currentLevel]` (`getCurrentLodLevel`). -/
def getCurrentLodLevel (s : LodState) : LodLevel :=
  s.levels.getD s.currentLevel dummyLodLevel

/-- `getEffectComplexity`. -/
def getEffectComplexity (s : LodState) : ℚ :=
  (getCurrentLodLevel s).effectComplexity

/-- `Math.max(0, Math.min(this.levels.length - 1, level))`, as a list index. -/
def clampLevel (numLevels : ℕ) (level : ℤ) : ℕ :=
  (max 0 (min ((numLevels : ℤ) - 1) level)).toNat

/-- `applyRendererSettings(lod)`: shadow enablement/type (the `switch` has no
`off` case, so the type is left unchanged there), pixel-ratio reduction at the
two lowest levels, anisotropy cap at levels ≤ 1 (never restored). -/
def applyRendererSettings (r : RendererState) (lod : LodLevel) : RendererState :=
  let r := { r with shadowMapEnabled := lod.shadowQuality ≠ ShadowQuality.off }
  let r :=
    match lod.shadowQuality with
    | .low => { r with shadowMapType := .basicShadowMap }
    | .medium => { r with shadowMapType := .pcfShadowMap }
    | .high => { r with shadowMapType := .pcfSoftShadowMap }
    | .off => r
  let r :=
    if lod.level = 0 then { r with pixelRatioFactor := 5/10 }
    else if lod.level = 1 then { r with pixelRatioFactor := 75/100 }
    else { r with pixelRatioFactor := 1 }
  if lod.level ≤ 1 then { r with anisotropyCappedAtOne := true } else r

/-- `LodManager.setQualityLevel(level)`: clamp, no-op (no state change, no
callback) when the clamped value equals the current level, otherwise update the
level, re-apply renderer settings and fire `onLodChange`.  The returned `Bool`
records whether the LOD-change callback was invoked. -/
def lodSetQualityLevel (s : LodState) (level : ℤ) : LodState × Bool :=
  let newLevel := clampLevel s.levels.length level
  if newLevel = s.currentLevel then (s, false)
  else
    let s1 := { s with currentLevel := newLevel }
    ({ s1 with renderer := applyRendererSettings s1.renderer (getCurrentLodLevel s1) }, true)

/-- `LodManager` constructor: initial level `Math.min(initialQualityGuess, levels.length - 1)`,
adaptive settings at their field initializers, then `applyRendererSettings`. -/
def initLod (levels : List LodLevel) (initialQualityGuess : ℕ) (r : RendererState) : LodState :=
  let s : LodState :=
    { levels := levels, currentLevel := min initialQualityGuess (levels.length - 1),
      frameCounter := 0, dynamicUpdateFrequency := true, distanceScalingEnabled := true,
      importanceBasedLod := true, importantObjects := ∅, adaptiveDistance := 50,
      renderer := r }
  { s with renderer := applyRendererSettings s.renderer (getCurrentLodLevel s) }

/-- `LodManager.shouldUpdate(importance, distance)`: increments the frame
counter, derives the effective update frequency from the current level plus the
importance/distance adjustments, and returns whether
`frameCounter % effectiveFrequency === 0`. -/
def lodShouldUpdate (s : LodState) (importance : ℚ) (distance : ℚ) : LodState × Bool :=
  let lod := getCurrentLodLevel s
  let s := { s with frameCounter := s.frameCounter + 1 }
  let effectiveFrequency := lod.updateFrequency
  let effectiveFrequency :=
    if s.dynamicUpdateFrequency then
      let ef := if importance > 8/10 then max 1 (effectiveFrequency - 1) else effectiveFrequency
      if distance > s.adaptiveDistance ∧ s.distanceScalingEnabled then
        let distanceFactor := min 3 ((⌊(distance - s.adaptiveDistance) / 30⌋).toNat + 1)
        min 6 (ef + distanceFactor)
      else ef
    else effectiveFrequency
  (s, decide (s.frameCounter % effectiveFrequency = 0))

/-- `LodManager.getParticleCount(baseCount, importance, distance)`: LOD scale
factor relative to the top default level, importance factor `0.5 + importance`,
linear distance falloff (floor 0.2) beyond the adaptive distance over a 150-unit
span, result floored at `max(10, floor(baseCount × 0.1))`. -/
def lodGetParticleCount (s : LodState) (baseCount : ℚ) (importance : ℚ) (distance : ℚ) : ℤ :=
  let lod := getCurrentLodLevel s
  let baseFactor := lod.particleCount / (DEFAULT_LOD_LEVELS.getLastD dummyLodLevel).particleCount
  let scaleFactor := baseFactor
  let scaleFactor := if s.importanceBasedLod then scaleFactor * (5/10 + importance) else scaleFactor
  let scaleFactor :=
    if distance > 0 ∧ s.distanceScalingEnabled then
      if distance > s.adaptiveDistance then
        scaleFactor * max (2/10) (1 - (distance - s.adaptiveDistance) / 150)
      else scaleFactor
    else scaleFactor
  let minCount : ℤ := max 10 ⌊baseCount * (1/10)⌋
  max minCount ⌊baseCount * scaleFactor⌋

/-- The LodManager state at the highest quality level of the default table:
constructed, then explicitly set to level 4. -/
def ultraLodState : LodState := (lodSetQualityLevel (initLod DEFAULT_LOD_LEVELS 0 initRenderer) 4).1

/-! ### Object pool (`Pool<T>`) -/

/-- State of a `Pool<T>` instance.  Pooled objects are identified by natural
numbers; the user-supplied factory is modelled by handing out the fresh
identifier `nextId` (so created objects are distinct from all existing ones)
and the user-supplied reset function is the identity on identifiers.  The
wall-clock accumulators `creationTime`/`resetTime` are pure bookkeeping read by
no logic and are omitted. -/
structure PoolState where
  pool : List ℕ
  inUse : Finset ℕ
  maxSize : ℕ
  minSize : ℕ
  nextId : ℕ
  creationCount : ℕ
  usageHistory : List ℕ
  poolHits : ℕ
  poolMisses : ℕ
  maxUsageCount : ℕ
deriving DecidableEq

/-- `recordUsage()`: push the current in-use count, keep the last 100 entries. -/
def recordUsage (s : PoolState) : PoolState :=
  let h := s.usageHistory ++ [s.inUse.card]
  { s with usageHistory := if h.length > 100 then h.tail else h }

/-- `prewarm(count)`: create `max(0, count - pool.length)` fresh objects into
the free list.  The source creates them in `setTimeout`-yielded batches of 10;
cooperative scheduling is modelled as the batches having completed. -/
def poolPrewarm (s : PoolState) (count : ℕ) : PoolState :=
  let toCreate := count - s.pool.length
  if toCreate = 0 then s
  else
    { s with pool := s.pool ++ (List.range toCreate).map (· + s.nextId),
             nextId := s.nextId + toCreate,
             creationCount := s.creationCount + toCreate }

/-- `trim(maxSize)`: drop excess objects from the front of the free list
(`pool.splice(0, removeCount)`). -/
def poolTrim (s : PoolState) (maxSize : ℕ) : PoolState :=
  if s.pool.length ≤ maxSize then s
  else { s with pool := s.pool.drop (s.pool.length - maxSize) }

/-- `checkAdaptiveSize()`: with at least 50 usage records, trim toward
`max(minSize, ceil(maxUsage × 1.2))` when far above it, or prewarm when below
it and under the capacity bound.  (`avgUsage` is computed but unused in the
source.) -/
def checkAdaptiveSize (s : PoolState) : PoolState :=
  if s.usageHistory.length < 50 then s
  else
    let maxUsage := s.usageHistory.foldr max 0
    let idealPoolSize := max s.minSize (Int.toNat ⌈(maxUsage : ℚ) * (12/10)⌉)
    if (s.pool.length : ℚ) > (idealPoolSize : ℚ) * (3/2) then poolTrim s idealPoolSize
    else if s.pool.length < idealPoolSize ∧
        (s.maxSize = 0 ∨ s.pool.length + s.inUse.card < s.maxSize) then
      poolPrewarm s (idealPoolSize - s.pool.length)
    else s

/-- `get()`: record usage, pop the last free object (a pool hit) or create a
fresh one (a miss), add it to the in-use set, update the usage peak. -/
def poolGet (s : PoolState) : PoolState × ℕ :=
  let s := recordUsage s
  let (s, obj) :=
    match s.pool.getLast? with
    | some obj => ({ s with pool := s.pool.dropLast, poolHits := s.poolHits + 1 }, obj)
    | none => ({ s with nextId := s.nextId + 1, creationCount := s.creationCount + 1,
                        poolMisses := s.poolMisses + 1 }, s.nextId)
  let s := { s with inUse := insert obj s.inUse }
  let s := if s.inUse.card > s.maxUsageCount then { s with maxUsageCount := s.inUse.card } else s
  (s, obj)

/-- `release(obj)`: an object not tracked as in-use only produces a
`console.warn` diagnostic and returns (state unchanged); otherwise the object
leaves the in-use set, is reset, and is returned to the free list unless the
pool is at its `maxSize` capacity (then it is discarded); finally adaptive
sizing is considered. -/
def poolRelease (s : PoolState) (obj : ℕ) : PoolState :=
  if obj ∉ s.inUse then s
  else
    let s := { s with inUse := s.inUse.erase obj }
    if s.maxSize > 0 ∧ s.pool.length ≥ s.maxSize then s
    else checkAdaptiveSize { s with pool := s.pool ++ [obj] }

/-- `size()`: total objects managed (free + in use). -/
def poolSize (s : PoolState) : ℕ := s.pool.length + s.inUse.card

/-- `available()`: free-list length. -/
def poolAvailable (s : PoolState) : ℕ := s.pool.length

/-- `inUseCount()`. -/
def poolInUseCount (s : PoolState) : ℕ := s.inUse.card

/-- `clear()`: drop all objects and usage history, reset hit/miss/peak counters
(creation count is kept for reference). -/
def poolClear (s : PoolState) : PoolState :=
  { s with pool := [], inUse := ∅, usageHistory := [],
           poolHits := 0, poolMisses := 0, maxUsageCount := 0 }

/-! ### Pool lemmas -/

theorem poolTrim_inUse (s : PoolState) (m : ℕ) : (poolTrim s m).inUse = s.inUse := by
  unfold poolTrim; split <;> rfl

theorem poolPrewarm_inUse (s : PoolState) (c : ℕ) : (poolPrewarm s c).inUse = s.inUse := by
  simp only [poolPrewarm]
  split <;> rfl

theorem checkAdaptiveSize_inUse (s : PoolState) : (checkAdaptiveSize s).inUse = s.inUse := by
  simp only [checkAdaptiveSize]
  split
  · rfl
  · split
    · exact poolTrim_inUse _ _
    · split
      · exact poolPrewarm_inUse _ _
      · rfl

theorem poolGet_inUse_of_empty (s : PoolState) (h : s.inUse = ∅) :
    (poolGet s).1.inUse = {(poolGet s).2} := by
  unfold poolGet recordUsage
  cases hL : s.pool.getLast? <;> simp [h, hL] <;> split <;> simp

theorem poolGet_maxSize (s : PoolState) : (poolGet s).1.maxSize = s.maxSize := by
  unfold poolGet recordUsage
  cases hL : s.pool.getLast? <;> simp [hL] <;> split <;> simp

theorem poolGet_len_lt (s : PoolState) (hcap : s.maxSize = 0 ∨ s.pool.length ≤ s.maxSize)
    (h0 : 0 < s.maxSize) : (poolGet s).1.pool.length < s.maxSize := by
  rcases hcap with h | h
  · omega
  · unfold poolGet recordUsage
    cases hL : s.pool.getLast? with
    | none =>
        have hnil : s.pool = [] := List.getLast?_eq_none_iff.mp hL
        simp [hL, hnil]
        split <;> simp <;> omega
    | some o =>
        have hne : s.pool ≠ [] := by intro he; simp [he] at hL
        have hlen : s.pool.length ≠ 0 := by simpa [List.length_eq_zero] using hne
        simp [hL, List.length_dropLast]
        split <;> simp <;> omega

/-! ### Claim theorems for the LOD manager and the pool -/

/-- C5: `LodManager.setQualityLevel` is idempotent: after a first call with
value `n`, a second call with the same `n` leaves the state unchanged and does
not fire the LOD-change callback (so the callback fires at most once for the
pair); and a call whose clamped value equals the current level is a complete
no-op returning the state unchanged with no callback. -/
theorem lodSetQualityLevel_idempotent :
    (∀ (s : LodState) (n : ℤ),
      (lodSetQualityLevel (lodSetQualityLevel s n).1 n).1 = (lodSetQualityLevel s n).1 ∧
      (lodSetQualityLevel (lodSetQualityLevel s n).1 n).2 = false) ∧
    (∀ (s : LodState) (n : ℤ), clampLevel s.levels.length n = s.currentLevel →
      lodSetQualityLevel s n = (s, false)) := by
  constructor
  · intro s n
    by_cases h : clampLevel s.levels.length n = s.currentLevel
    · simp [lodSetQualityLevel, h]
    · simp [lodSetQualityLevel, h]
  · intro s n h
    simp [lodSetQualityLevel, h]

/-- Witness for C5: setting level 2 on a manager already at level 2 of the
default table is a no-op with no callback. -/
theorem lodSetQualityLevel_idempotent_witness :
    lodSetQualityLevel (initLod DEFAULT_LOD_LEVELS 2 initRenderer) 2 =
      (initLod DEFAULT_LOD_LEVELS 2 initRenderer, false) :=
  lodSetQualityLevel_idempotent.2 (initLod DEFAULT_LOD_LEVELS 2 initRenderer) 2 (by
    have h2 : Int.toNat 2 = 2 := rfl
    norm_num [initLod, clampLevel, DEFAULT_LOD_LEVELS, h2])

/-- C6: with the default 5-level LOD table at the highest quality level,
`getParticleCount(1000, 0.5, 0)` returns exactly 1000; and for every manager
state, every base count, every importance in `[0,1]` and every distance `≥ 0`,
the returned count is at least `max(10, ⌊0.1 × baseCount⌋)`. -/
theorem lodGetParticleCount_spec :
    lodGetParticleCount ultraLodState 1000 (1/2) 0 = 1000 ∧
    (∀ (s : LodState) (baseCount importance distance : ℚ),
      0 ≤ importance → importance ≤ 1 → 0 ≤ distance →
      max 10 ⌊(1/10 : ℚ) * baseCount⌋ ≤ lodGetParticleCount s baseCount importance distance) := by
  constructor
  · have h4 : Int.toNat 4 = 4 := rfl
    norm_num [lodGetParticleCount, ultraLodState, lodSetQualityLevel, initLod, clampLevel,
      getCurrentLodLevel, DEFAULT_LOD_LEVELS, dummyLodLevel, List.getD, List.getLastD,
      List.getLast?, h4]
  · intro s baseCount importance distance _ _ _
    simp only [lodGetParticleCount]
    rw [mul_comm (1/10 : ℚ) baseCount]
    exact le_max_left _ _

/-- Witness for C6: the lower bound instantiated at the highest default level
with base 1000, importance 0.5, distance 0. -/
theorem lodGetParticleCount_spec_witness :
    max 10 ⌊(1/10 : ℚ) * 1000⌋ ≤ lodGetParticleCount ultraLodState 1000 (1/2) 0 :=
  lodGetParticleCount_spec.2 ultraLodState 1000 (1/2) 0 (by norm_num) (by norm_num) le_rfl

/-- C9: `Pool.release` of an object not tracked as in-use is a no-op (the state
is returned unchanged, so `size()`, `available()` and `inUseCount()` are all
unchanged; the source additionally emits a `console.warn` diagnostic and never
throws); whereas `get()` immediately followed by `release` of the returned
object, from a pool with nothing in use and the `maxSize` cap not reached,
returns it to the free list, leaving `available() == size()` and
`inUseCount() == 0`. -/
theorem poolRelease_spec :
    (∀ (s : PoolState) (obj : ℕ), obj ∉ s.inUse → poolRelease s obj = s) ∧
    (∀ s : PoolState, s.inUse = ∅ → (s.maxSize = 0 ∨ s.pool.length ≤ s.maxSize) →
      poolAvailable (poolRelease (poolGet s).1 (poolGet s).2) =
        poolSize (poolRelease (poolGet s).1 (poolGet s).2) ∧
      poolInUseCount (poolRelease (poolGet s).1 (poolGet s).2) = 0) := by
  constructor
  · intro s obj h
    simp [poolRelease, h]
  · intro s h hcap
    have h1 : (poolGet s).1.inUse = {(poolGet s).2} := poolGet_inUse_of_empty s h
    have hend : (poolRelease (poolGet s).1 (poolGet s).2).inUse = ∅ := by
      unfold poolRelease
      rw [if_neg (by simp [h1])]
      by_cases h0 : 0 < s.maxSize
      · have hlt := poolGet_len_lt s hcap h0
        rw [if_neg (by simp [poolGet_maxSize]; omega)]
        rw [checkAdaptiveSize_inUse]
        simp [h1]
      · rw [if_neg (by simp [poolGet_maxSize]; omega)]
        rw [checkAdaptiveSize_inUse]
        simp [h1]
    refine ⟨?_, ?_⟩
    · simp [poolAvailable, poolSize, poolInUseCount, hend]
    · simp [poolInUseCount, hend]

/-- Witness for C9: an empty unbounded pool; releasing the untracked object `5`
changes nothing, and a get/release round trip leaves nothing in use. -/
theorem poolRelease_spec_witness :
    poolRelease ⟨[], ∅, 0, 0, 0, 0, [], 0, 0, 0⟩ 5 = ⟨[], ∅, 0, 0, 0, 0, [], 0, 0, 0⟩ ∧
    poolInUseCount (poolRelease (poolGet ⟨[], ∅, 0, 0, 0, 0, [], 0, 0, 0⟩).1
      (poolGet ⟨[], ∅, 0, 0, 0, 0, [], 0, 0, 0⟩).2) = 0 :=
  ⟨poolRelease_spec.1 _ 5 (by simp),
   (poolRelease_spec.2 _ rfl (Or.inl rfl)).2⟩

/-! ### BaseVisualization -/

/-- Shader complexity tier (`'low' | 'medium' | 'high'`). -/
inductive ShaderComplexity
  | low
  | medium
  | high
deriving DecidableEq, Repr

/-- `audioData.beat`. -/
structure AudioBeat where
  detected : Bool
  confidence : ℚ
  bpm : ℚ
deriving DecidableEq

/-- The slice of `AudioAnalysisData` read by `BaseVisualization.update`'s
control flow (the frequency/time-domain arrays are only forwarded to the
style-specific `updateVisualization`). -/
structure AudioData where
  beat : AudioBeat
  volume : ℚ
deriving DecidableEq

/-- An entry of one of the texture/material/geometry caches: its key and the
`userData.lastUsed` timestamp (in seconds of elapsed clock time; absent when
never stamped). -/
structure CacheEntry where
  key : String
  lastUsed : Option ℚ
deriving DecidableEq

/-- Mutable state of a `BaseVisualization` instance.  Scene objects, materials
and geometries are identified by natural numbers; `scene` is the scene graph's
children list. -/
structure BVState where
  scene : List ℕ
  objects : List ℕ
  materials : List ℕ
  geometries : List ℕ
  objectPools : List (String × PoolState)
  boundingSpheres : List ℕ
  textureCache : List CacheEntry
  materialCache : List CacheEntry
  geometryCache : List CacheEntry
  uniformTime : ℚ
  uniformBeat : ℚ
  uniformVolume : ℚ
  frameCount : ℕ
  lastUpdateTime : ℚ
  isVisible : Bool
  distanceToCamera : ℚ
  visibilityThreshold : ℚ
  updateFrequency : ℕ
  qualityScale : ℚ
  currentDrawCalls : ℕ
  shaderComplexity : ShaderComplexity
  lastCleanupTime : ℚ
  memoryCleanupInterval : ℚ
deriving DecidableEq

/-- One cache sweep of `cleanupUnusedResources`: drop (and dispose) every entry
whose `lastUsed` stamp is falsy (absent or 0) or older than 60 seconds. -/
def cleanupCache (time : ℚ) (c : List CacheEntry) : List CacheEntry :=
  c.filter fun e =>
    match e.lastUsed with
    | none => false
    | some lu => decide (¬lu = 0 ∧ time - lu ≤ 60)

/-- `cleanupUnusedResources()` applied to the three caches. -/
def cleanupUnusedResources (bv : BVState) (time : ℚ) : BVState :=
  { bv with textureCache := cleanupCache time bv.textureCache,
            materialCache := cleanupCache time bv.materialCache,
            geometryCache := cleanupCache time bv.geometryCache }

/-- First block of `BaseVisualization.update`: increment the frame counter,
refresh the shared `time`/`beat`/`volume` uniforms, and (when a camera is
supplied) recompute the camera distance and the `isVisible` flag. -/
def applyAudioFrame (bv : BVState) (audio : AudioData) (camDist : Option ℚ)
    (elapsed : ℚ) : BVState :=
  let bv := { bv with frameCount := bv.frameCount + 1 }
  let bv := { bv with uniformTime := elapsed,
                      uniformBeat := if audio.beat.detected then 1 else 0,
                      uniformVolume := audio.volume }
  match camDist with
  | some d => { bv with distanceToCamera := d,
                        isVisible := decide (d < bv.visibilityThreshold) }
  | none => { bv with isVisible := true, distanceToCamera := 0 }

/-- The importance heuristic of `update`: beat detected → 0.9, loud → 0.8,
else 0.5. -/
def importanceFactorOf (audio : AudioData) : ℚ :=
  if audio.beat.detected then 9/10 else if audio.volume > 7/10 then 8/10 else 1/2

/-- The frequency-gate block of `update`: ask the LOD manager's `shouldUpdate`
(advancing its frame counter) and resync the cached quality scale / shader
complexity (forcing an update on change); without a LOD manager, fall back to
the local `frameCount % updateFrequency` check. -/
def updateGate (bv : BVState) (lodOpt : Option LodState) (importanceFactor : ℚ) :
    Option LodState × BVState × Bool :=
  match lodOpt with
  | some lod =>
      let r := lodShouldUpdate lod importanceFactor bv.distanceToCamera
      let newQualityScale := getEffectComplexity r.1
      if newQualityScale ≠ bv.qualityScale then
        (some r.1,
         { bv with qualityScale := newQualityScale,
                   shaderComplexity :=
                     if newQualityScale < 4/10 then ShaderComplexity.low
                     else if newQualityScale < 8/10 then ShaderComplexity.medium
                     else ShaderComplexity.high },
         true)
      else (some r.1, bv, r.2)
  | none => (none, bv, decide (bv.frameCount % bv.updateFrequency = 0))

/-- `BaseVisualization.update(audioData, detectedInstruments, camera)` decision
logic.  `camDist` is the camera's distance to the scene origin when a camera is
supplied; `elapsed` is `clock.getElapsedTime()`.  Returns the updated
visualization state, the updated LOD manager state, and whether control reached
the style-specific `updateVisualization(audioData)` call this frame. -/
def bvUpdate (bv0 : BVState) (lodOpt0 : Option LodState) (audio : AudioData)
    (camDist : Option ℚ) (elapsed : ℚ) : BVState × Option LodState × Bool :=
  let bv1 := applyAudioFrame bv0 audio camDist elapsed
  let g := updateGate bv1 lodOpt0 (importanceFactorOf audio)
  let lodOpt := g.1
  let bv := g.2.1
  let shouldUpd := if audio.beat.detected ∧ audio.beat.confidence > 1/2 then true else g.2.2
  let currentTime := bv.uniformTime
  let bv :=
    if currentTime - bv.lastCleanupTime > bv.memoryCleanupInterval / 1000 then
      { cleanupUnusedResources bv currentTime with lastCleanupTime := currentTime }
    else bv
  if ¬bv.isVisible ∨ ¬shouldUpd then (bv, lodOpt, false)
  else ({ bv with lastUpdateTime := bv.uniformTime, currentDrawCalls := 0 }, lodOpt, true)

/-- `clearScene(removeAllChildren)`: remove every tracked object from the scene
children, empty the tracked list, then (`removeAllChildren`) pop any remaining
children one by one until the scene is empty. -/
def clearScene (bv : BVState) (removeAllChildren : Bool) : BVState :=
  let scene := bv.objects.foldl (fun sc o => sc.erase o) bv.scene
  let bv := { bv with scene := scene, objects := [] }
  if removeAllChildren then { bv with scene := [] } else bv

/-- `dispose()`: dispose every tracked material and geometry (a GPU effect),
clear every object pool, dispose-and-clear the three caches, empty the tracking
arrays and maps, then `clearScene()` (with its default `removeAllChildren = true`). -/
def dispose (bv : BVState) : BVState :=
  let bv := { bv with objectPools :=
                bv.objectPools.map fun (p : String × PoolState) => (p.1, poolClear p.2) }
  let bv := { bv with textureCache := [], materialCache := [], geometryCache := [] }
  let bv := { bv with materials := [], geometries := [], objectPools := [],
                      boundingSpheres := [] }
  clearScene bv true

/-! ### BaseVisualization lemmas and claim theorems -/

theorem cleanupUnusedResources_isVisible (bv : BVState) (t : ℚ) :
    (cleanupUnusedResources bv t).isVisible = bv.isVisible := rfl

theorem updateGate_isVisible (bv : BVState) (lodOpt : Option LodState) (i : ℚ) :
    (updateGate bv lodOpt i).2.1.isVisible = bv.isVisible := by
  cases lodOpt with
  | none => rfl
  | some lod =>
      simp only [updateGate]
      split <;> rfl

theorem applyAudioFrame_isVisible_of (bv : BVState) (audio : AudioData)
    (camDist : Option ℚ) (elapsed : ℚ)
    (hv : ∀ d : ℚ, camDist = some d → d < bv.visibilityThreshold) :
    (applyAudioFrame bv audio camDist elapsed).isVisible = true := by
  cases camDist with
  | none => rfl
  | some d =>
      simp only [applyAudioFrame]
      simpa using hv d rfl

/-- C7: on a visible visualization (no camera, or the camera within the
visibility threshold), a detected beat with confidence above 0.5 forces the
style-specific `updateVisualization` to be invoked that same frame, regardless
of the LOD manager's `shouldUpdate` gate or the local modulo-frequency
fallback. -/
theorem bvUpdate_beat_forces :
    ∀ (bv : BVState) (lodOpt : Option LodState) (audio : AudioData)
      (camDist : Option ℚ) (elapsed : ℚ),
    audio.beat.detected = true → audio.beat.confidence > 1/2 →
    (∀ d : ℚ, camDist = some d → d < bv.visibilityThreshold) →
    (bvUpdate bv lodOpt audio camDist elapsed).2.2 = true := by
  intro bv lodOpt audio camDist elapsed hd hc hv
  have hvis1 := applyAudioFrame_isVisible_of bv audio camDist elapsed hv
  simp only [bvUpdate]
  set bv1 := applyAudioFrame bv audio camDist elapsed with hbv1
  set g := updateGate bv1 lodOpt (importanceFactorOf audio) with hg
  have hvg : g.2.1.isVisible = true := by
    rw [hg, updateGate_isVisible]; exact hvis1
  rw [if_pos (show audio.beat.detected = true ∧ audio.beat.confidence > 1/2 from ⟨hd, hc⟩)]
  by_cases hC : g.2.1.uniformTime - g.2.1.lastCleanupTime > g.2.1.memoryCleanupInterval / 1000
  · rw [if_pos hC, if_neg (by simp [cleanupUnusedResources_isVisible, hvg])]
  · rw [if_neg hC, if_neg (by simp [hvg])]

/-- Witness for C7: a beat of confidence 0.9 arrives while the LOD gate (level
1 of the default table, update frequency 3, importance 0.9 → effective
frequency 2, frame counter 1) returns false; `updateVisualization` is still
invoked. -/
theorem bvUpdate_beat_forces_witness :
    (bvUpdate
      ⟨[], [], [], [], [], [], [], [], [], 0, 0, 0, 0, 0, true, 0, 100, 3, 3/10, 0,
        ShaderComplexity.medium, 0, 30000⟩
      (some (initLod DEFAULT_LOD_LEVELS 1 initRenderer))
      ⟨⟨true, 9/10, 120⟩, 0⟩ none 0).2.2 = true :=
  bvUpdate_beat_forces _ _ _ _ _ rfl (by norm_num) (fun _ h => Option.noConfusion h)

/-- C8: after `dispose()`, the tracked-objects list is empty, the scene graph
contains no children at all (in particular no previously tracked object), and
the material, geometry and texture caches are all empty. -/
theorem dispose_spec :
    ∀ bv : BVState,
    (dispose bv).objects = [] ∧
    (dispose bv).scene = [] ∧
    (∀ o ∈ bv.objects, o ∉ (dispose bv).scene) ∧
    (dispose bv).materialCache = [] ∧
    (dispose bv).geometryCache = [] ∧
    (dispose bv).textureCache = [] := by
  intro bv
  simp [dispose, clearScene]

/-- Witness for C8: a visualization tracking object 1 (also a scene child) and
one cached material; after `dispose` the tracked object is gone from the scene. -/
theorem dispose_spec_witness :
    (1 : ℕ) ∉ (dispose ⟨[1], [1], [2], [3], [], [], [], [⟨"m", none⟩], [], 0, 0, 0, 5, 0,
        true, 0, 100, 1, 1, 0, ShaderComplexity.high, 0, 30000⟩).scene :=
  (dispose_spec _).2.2.1 1 (by simp)

/-! ### Performance monitor -/

/-- `PerformanceSettings`.  `qualityLevels` is kept as an integer since the
quality-level fields are JavaScript numbers. -/
structure PerfSettings where
  targetFps : ℚ
  criticalFps : ℚ
  adjustmentPeriod : ℚ
  qualityLevels : ℤ
deriving DecidableEq

/-- The constructor's default settings. -/
def defaultSettings : PerfSettings :=
  { targetFps := 60, criticalFps := 30, adjustmentPeriod := 2000, qualityLevels := 5 }

/-- The `PerformanceMetrics` record.  `minFps` starts at `Infinity`, modelled
with `WithTop ℚ`. -/
structure PerfMetrics where
  fps : ℚ
  averageFps : ℚ
  minFps : WithTop ℚ
  maxFps : ℚ
  fpsStability : ℚ
  frameTime : ℚ
  averageFrameTime : ℚ
  maxFrameTime : ℚ
  memoryUsage : ℚ
  memoryPeak : ℚ
  isPerformanceCritical : Bool
  isMemoryConstrained : Bool
  currentQualityLevel : ℤ
  targetQualityLevel : ℤ
  updateTime : ℚ
  renderTime : ℚ
  shaderTime : ℚ
  postProcessingTime : ℚ
  physicsTime : ℚ
  gcTime : ℚ
  drawCalls : ℕ
  triangles : ℕ
  particles : ℕ
  frameBudgetUsage : ℚ
  hasFrameDrops : Bool
deriving DecidableEq

/-- Metrics as initialized by the `PerformanceMonitor` constructor (quality
levels start at the highest, `qualityLevels - 1`). -/
def initMetrics (cfg : PerfSettings) : PerfMetrics :=
  { fps := 0, averageFps := 0, minFps := ⊤, maxFps := 0, fpsStability := 1,
    frameTime := 0, averageFrameTime := 0, maxFrameTime := 0,
    memoryUsage := 0, memoryPeak := 0,
    isPerformanceCritical := false, isMemoryConstrained := false,
    currentQualityLevel := cfg.qualityLevels - 1, targetQualityLevel := cfg.qualityLevels - 1,
    updateTime := 0, renderTime := 0, shaderTime := 0, postProcessingTime := 0,
    physicsTime := 0, gcTime := 0, drawCalls := 0, triangles := 0, particles := 0,
    frameBudgetUsage := 0, hasFrameDrops := false }

/-- Mutable state of a `PerformanceMonitor` instance (the section-timing maps,
which no claim concerns, are omitted). -/
structure MonitorState where
  metrics : PerfMetrics
  settings : PerfSettings
  fpsHistory : List ℚ
  frameTimeHistory : List ℚ
  memoryHistory : List ℚ
  lastAdjustmentTime : ℚ
  frameCount : ℕ
  memoryPeak : ℚ
  frameStartTime : ℚ
  lastFrameTime : ℚ
deriving DecidableEq

/-- `historySize = 60`. -/
def historySize : ℕ := 60

/-- `gcDetectionThreshold = 50` ms. -/
def gcDetectionThreshold : ℚ := 50

/-- `PerformanceMonitor` constructor state. -/
def initMonitor (cfg : PerfSettings) : MonitorState :=
  { metrics := initMetrics cfg, settings := cfg, fpsHistory := [], frameTimeHistory := [],
    memoryHistory := [], lastAdjustmentTime := 0, frameCount := 0, memoryPeak := 0,
    frameStartTime := 0, lastFrameTime := 0 }

/-- The `push` + bounded-`shift` pattern used for every rolling 60-sample
window. -/
def pushHistory (h : List ℚ) (x : ℚ) : List ℚ :=
  let h := h ++ [x]
  if h.length > historySize then h.tail else h

/-- `beginFrame()`: record the frame start time.  (The draw-call snapshot it
also takes is bookkeeping that `endFrame` overwrites.) -/
def beginFrame (s : MonitorState) (now : ℚ) : MonitorState :=
  { s with frameStartTime := now }

/-- The first block of `endFrame()` (everything before `checkQualityAdjustment`):
frame time, GC-pause detection with 0.9 decay, rolling FPS/frame-time windows
and their statistics, optional memory metrics, optional renderer draw-call
counters, frame-budget usage, frame-drop and performance-critical flags.

Environmental inputs: `now` is `performance.now()`; `fpsReading` is the value
of `metrics.fps` as supplied by the FPS measurement machinery right before the
`const currentFps = this.metrics.fps || 60` defaulting (which is applied here);
`mem` is `(usedJSHeapSize, jsHeapSizeLimit)` in bytes when the platform memory
API exists; `rend` is `(calls, triangles)` when `renderer.info.render` exists.
`sqrtQ` stands for `Math.sqrt`. -/
def updateStats (sqrtQ : ℚ → ℚ) (s : MonitorState) (now fpsReading : ℚ)
    (mem : Option (ℚ × ℚ)) (rend : Option (ℕ × ℕ)) : MonitorState :=
  let frameTime := now - s.frameStartTime
  let timeSinceLastFrame := now - s.lastFrameTime
  let m := s.metrics
  let m :=
    if s.lastFrameTime > 0 ∧ timeSinceLastFrame > gcDetectionThreshold then
      { m with gcTime := timeSinceLastFrame }
    else
      { m with gcTime := m.gcTime * (9/10) }
  let s := { s with lastFrameTime := now, frameCount := s.frameCount + 1 }
  let currentFps := if fpsReading = 0 then 60 else fpsReading
  let m := { m with fps := currentFps, frameTime := frameTime }
  let frameTimeHistory := pushHistory s.frameTimeHistory frameTime
  let m := { m with minFps := min m.minFps (currentFps : WithTop ℚ),
                    maxFps := max m.maxFps currentFps,
                    maxFrameTime := max m.maxFrameTime frameTime }
  let fpsHistory := pushHistory s.fpsHistory currentFps
  let m := { m with averageFps := fpsHistory.sum / (fpsHistory.length : ℚ) }
  let m := { m with
    averageFrameTime := frameTimeHistory.sum / (frameTimeHistory.length : ℚ) }
  let m :=
    if fpsHistory.length > 5 then
      let fpsVariance :=
        (fpsHistory.map fun fps => (fps - m.averageFps) ^ 2).sum / (fpsHistory.length : ℚ)
      let fpsStdDev := sqrtQ fpsVariance
      { m with fpsStability := max 0 (1 - fpsStdDev / m.averageFps) }
    else m
  let (s, m) :=
    match mem with
    | none => (s, m)
    | some (usedJSHeapSize, jsHeapSizeLimit) =>
        let currentMemory := usedJSHeapSize / (1024 * 1024)
        let mp := max s.memoryPeak currentMemory
        let memoryLimit := jsHeapSizeLimit / (1024 * 1024)
        ({ s with memoryPeak := mp, memoryHistory := pushHistory s.memoryHistory currentMemory },
         { m with memoryUsage := currentMemory, memoryPeak := mp,
                  isMemoryConstrained := decide (currentMemory > memoryLimit * (8/10)) })
  let m :=
    match rend with
    | none => m
    | some (calls, tris) => { m with drawCalls := calls, triangles := tris }
  let targetFrameTime := 1000 / s.settings.targetFps
  let m := { m with frameBudgetUsage := min 1 (frameTime / targetFrameTime),
                    hasFrameDrops := decide (frameTime > targetFrameTime * (12/10)) }
  let m := { m with isPerformanceCritical :=
               decide (m.averageFps < s.settings.criticalFps ∨ m.frameBudgetUsage > 95/100) }
  { s with metrics := m, fpsHistory := fpsHistory, frameTimeHistory := frameTimeHistory }

/-- The priority-ordered rule cascade of `checkQualityAdjustment`, starting
from `currentQualityLevel`: memory-constrained / performance-critical /
high-budget-low-stability / increase-when-good / below-target decreases, plus
the independent `gcTime > 30` decrease that stacks on the outcome.  Returns the
proposed target level and the `needsAdjustment` flag. -/
def proposedTarget (m : PerfMetrics) (cfg : PerfSettings) : ℤ × Bool :=
  let t0 := m.currentQualityLevel
  let r :=
    if m.isMemoryConstrained then (max 0 (t0 - 1), true)
    else if m.isPerformanceCritical then (max 0 (t0 - 1), true)
    else if m.frameBudgetUsage > 9/10 ∧ m.fpsStability < 7/10 then (max 0 (t0 - 1), true)
    else if m.averageFps > cfg.targetFps * (11/10) ∧ m.fpsStability > 8/10 ∧
            m.frameBudgetUsage < 7/10 then
      if t0 < cfg.qualityLevels - 1 then (t0 + 1, true) else (t0, false)
    else if m.averageFps < cfg.targetFps * (9/10) ∨ m.fpsStability < 6/10 then
      (max 0 (t0 - 1), true)
    else (t0, false)
  if m.gcTime > 30 then (max 0 (r.1 - 1), true) else r

/-- `checkQualityAdjustment()`: return early within `adjustmentPeriod` of the
last adjustment or during the 100-frame warm-up; otherwise evaluate the rule
cascade and, when it asks for a level different from the current target, write
`targetQualityLevel`, stamp `lastAdjustmentTime` and fire `onQualityChange`.
Returns the state, whether the rules were evaluated (the early returns were not
taken), and the callback argument when fired. -/
def checkQualityAdjustment (s : MonitorState) (now : ℚ) : MonitorState × Bool × Option ℤ :=
  if now - s.lastAdjustmentTime < s.settings.adjustmentPeriod then (s, false, none)
  else if s.frameCount < 100 then (s, false, none)
  else
    let targetLevel := (proposedTarget s.metrics s.settings).1
    let needsAdjustment := (proposedTarget s.metrics s.settings).2
    if needsAdjustment = true ∧ targetLevel ≠ s.metrics.targetQualityLevel then
      ({ s with metrics := { s.metrics with targetQualityLevel := targetLevel },
                lastAdjustmentTime := now }, true, some targetLevel)
    else (s, true, none)

/-- `endFrame()`: the statistics block followed by `checkQualityAdjustment`. -/
def endFrame (sqrtQ : ℚ → ℚ) (s : MonitorState) (now fpsReading : ℚ)
    (mem : Option (ℚ × ℚ)) (rend : Option (ℕ × ℕ)) : MonitorState × Bool × Option ℤ :=
  checkQualityAdjustment (updateStats sqrtQ s now fpsReading mem rend) now

/-- `PerformanceMonitor.setQualityLevel(level)`: clamp to
`[0, qualityLevels - 1]`, set both current and target levels, fire
`onQualityChange` unconditionally with the clamped value (returned here). -/
def pmSetQualityLevel (s : MonitorState) (level : ℤ) : MonitorState × ℤ :=
  let clampedLevel := max 0 (min (s.settings.qualityLevels - 1) level)
  let m := { s.metrics with currentQualityLevel := clampedLevel,
                            targetQualityLevel := clampedLevel }
  ({ s with metrics := m }, clampedLevel)

/-- One `beginFrame`/`endFrame` pair. -/
structure FrameInput where
  beginTime : ℚ
  endTime : ℚ
  fpsReading : ℚ
  mem : Option (ℚ × ℚ)
  rend : Option (ℕ × ℕ)
deriving DecidableEq

/-- A `beginFrame`/`endFrame` pair acting on the monitor (the evaluated flag
and callback argument are dropped). -/
def frameStep (sqrtQ : ℚ → ℚ) (s : MonitorState) (inp : FrameInput) : MonitorState :=
  (endFrame sqrtQ (beginFrame s inp.beginTime) inp.endTime inp.fpsReading inp.mem inp.rend).1

/-- A sequence of frames acting on the monitor. -/
def runFrames (sqrtQ : ℚ → ℚ) (s : MonitorState) (inputs : List FrameInput) : MonitorState :=
  inputs.foldl (frameStep sqrtQ) s

/-! ### Monitor lemmas: what `updateStats` and `checkQualityAdjustment` touch -/

theorem updateStats_settings (sqrtQ : ℚ → ℚ) (s : MonitorState) (now r : ℚ)
    (mem : Option (ℚ × ℚ)) (rend : Option (ℕ × ℕ)) :
    (updateStats sqrtQ s now r mem rend).settings = s.settings := by
  unfold updateStats
  rcases mem with _ | ⟨a, b⟩ <;> rfl

theorem updateStats_currentQuality (sqrtQ : ℚ → ℚ) (s : MonitorState) (now r : ℚ)
    (mem : Option (ℚ × ℚ)) (rend : Option (ℕ × ℕ)) :
    (updateStats sqrtQ s now r mem rend).metrics.currentQualityLevel
      = s.metrics.currentQualityLevel := by
  rcases mem with _ | ⟨a, b⟩ <;> rcases rend with _ | ⟨c, d⟩ <;>
    simp [updateStats, apply_ite PerfMetrics.currentQualityLevel]

theorem updateStats_targetQuality (sqrtQ : ℚ → ℚ) (s : MonitorState) (now r : ℚ)
    (mem : Option (ℚ × ℚ)) (rend : Option (ℕ × ℕ)) :
    (updateStats sqrtQ s now r mem rend).metrics.targetQualityLevel
      = s.metrics.targetQualityLevel := by
  rcases mem with _ | ⟨a, b⟩ <;> rcases rend with _ | ⟨c, d⟩ <;>
    simp [updateStats, apply_ite PerfMetrics.targetQualityLevel]

theorem updateStats_lastAdjustmentTime (sqrtQ : ℚ → ℚ) (s : MonitorState) (now r : ℚ)
    (mem : Option (ℚ × ℚ)) (rend : Option (ℕ × ℕ)) :
    (updateStats sqrtQ s now r mem rend).lastAdjustmentTime = s.lastAdjustmentTime := by
  unfold updateStats
  rcases mem with _ | ⟨a, b⟩ <;> rfl

theorem updateStats_frameCount (sqrtQ : ℚ → ℚ) (s : MonitorState) (now r : ℚ)
    (mem : Option (ℚ × ℚ)) (rend : Option (ℕ × ℕ)) :
    (updateStats sqrtQ s now r mem rend).frameCount = s.frameCount + 1 := by
  unfold updateStats
  rcases mem with _ | ⟨a, b⟩ <;> rfl

theorem updateStats_frameTime (sqrtQ : ℚ → ℚ) (s : MonitorState) (now r : ℚ)
    (mem : Option (ℚ × ℚ)) (rend : Option (ℕ × ℕ)) :
    (updateStats sqrtQ s now r mem rend).metrics.frameTime = now - s.frameStartTime := by
  rcases mem with _ | ⟨a, b⟩ <;> rcases rend with _ | ⟨c, d⟩ <;>
    simp [updateStats, apply_ite PerfMetrics.frameTime]

theorem updateStats_budget (sqrtQ : ℚ → ℚ) (s : MonitorState) (now r : ℚ)
    (mem : Option (ℚ × ℚ)) (rend : Option (ℕ × ℕ)) :
    (updateStats sqrtQ s now r mem rend).metrics.frameBudgetUsage
      = min 1 ((now - s.frameStartTime) / (1000 / s.settings.targetFps)) := by
  rcases mem with _ | ⟨a, b⟩ <;> rcases rend with _ | ⟨c, d⟩ <;>
    simp [updateStats]

theorem updateStats_drops (sqrtQ : ℚ → ℚ) (s : MonitorState) (now r : ℚ)
    (mem : Option (ℚ × ℚ)) (rend : Option (ℕ × ℕ)) :
    (updateStats sqrtQ s now r mem rend).metrics.hasFrameDrops
      = decide (now - s.frameStartTime > (1000 / s.settings.targetFps) * (12/10)) := by
  rcases mem with _ | ⟨a, b⟩ <;> rcases rend with _ | ⟨c, d⟩ <;>
    simp [updateStats]

theorem check_currentQuality (s : MonitorState) (now : ℚ) :
    (checkQualityAdjustment s now).1.metrics.currentQualityLevel
      = s.metrics.currentQualityLevel := by
  unfold checkQualityAdjustment
  split
  · rfl
  · split
    · rfl
    · dsimp only
      split <;> rfl

theorem check_settings (s : MonitorState) (now : ℚ) :
    (checkQualityAdjustment s now).1.settings = s.settings := by
  unfold checkQualityAdjustment
  split
  · rfl
  · split
    · rfl
    · dsimp only
      split <;> rfl

theorem check_frameCount (s : MonitorState) (now : ℚ) :
    (checkQualityAdjustment s now).1.frameCount = s.frameCount := by
  unfold checkQualityAdjustment
  split
  · rfl
  · split
    · rfl
    · dsimp only
      split <;> rfl

theorem check_frameTime (s : MonitorState) (now : ℚ) :
    (checkQualityAdjustment s now).1.metrics.frameTime = s.metrics.frameTime := by
  unfold checkQualityAdjustment
  split
  · rfl
  · split
    · rfl
    · dsimp only
      split <;> rfl

theorem check_budget (s : MonitorState) (now : ℚ) :
    (checkQualityAdjustment s now).1.metrics.frameBudgetUsage
      = s.metrics.frameBudgetUsage := by
  unfold checkQualityAdjustment
  split
  · rfl
  · split
    · rfl
    · dsimp only
      split <;> rfl

theorem check_drops (s : MonitorState) (now : ℚ) :
    (checkQualityAdjustment s now).1.metrics.hasFrameDrops = s.metrics.hasFrameDrops := by
  unfold checkQualityAdjustment
  split
  · rfl
  · split
    · rfl
    · dsimp only
      split <;> rfl

theorem check_target_cases (s : MonitorState) (now : ℚ) :
    (checkQualityAdjustment s now).1.metrics.targetQualityLevel = s.metrics.targetQualityLevel
    ∨ (checkQualityAdjustment s now).1.metrics.targetQualityLevel
        = (proposedTarget s.metrics s.settings).1 := by
  unfold checkQualityAdjustment
  split
  · exact Or.inl rfl
  · split
    · exact Or.inl rfl
    · dsimp only
      split
      · exact Or.inr rfl
      · exact Or.inl rfl

theorem check_early (s : MonitorState) (now : ℚ)
    (h : now - s.lastAdjustmentTime < s.settings.adjustmentPeriod) :
    checkQualityAdjustment s now = (s, false, none) := by
  unfold checkQualityAdjustment
  rw [if_pos h]

theorem check_evaluated_period (s : MonitorState) (now : ℚ)
    (h : (checkQualityAdjustment s now).2.1 = true) :
    s.settings.adjustmentPeriod ≤ now - s.lastAdjustmentTime := by
  by_cases h1 : now - s.lastAdjustmentTime < s.settings.adjustmentPeriod
  · rw [check_early s now h1] at h
    simp at h
  · exact le_of_not_lt h1

theorem check_evaluated_warm (s : MonitorState) (now : ℚ)
    (h : (checkQualityAdjustment s now).2.1 = true) :
    100 ≤ s.frameCount := by
  unfold checkQualityAdjustment at h
  by_cases h1 : now - s.lastAdjustmentTime < s.settings.adjustmentPeriod
  · rw [if_pos h1] at h
    simp at h
  · rw [if_neg h1] at h
    by_cases h2 : s.frameCount < 100
    · rw [if_pos h2] at h
      simp at h
    · omega

theorem check_change_stamps (s : MonitorState) (now : ℚ)
    (h : (checkQualityAdjustment s now).1.metrics.targetQualityLevel
          ≠ s.metrics.targetQualityLevel) :
    (checkQualityAdjustment s now).1.lastAdjustmentTime = now := by
  unfold checkQualityAdjustment at h ⊢
  by_cases h1 : now - s.lastAdjustmentTime < s.settings.adjustmentPeriod
  · rw [if_pos h1] at h
    exact absurd rfl h
  · rw [if_neg h1] at h ⊢
    by_cases h2 : s.frameCount < 100
    · rw [if_pos h2] at h
      exact absurd rfl h
    · rw [if_neg h2] at h ⊢
      dsimp only at h ⊢
      by_cases h3 : (proposedTarget s.metrics s.settings).2 = true ∧
          (proposedTarget s.metrics s.settings).1 ≠ s.metrics.targetQualityLevel
      · rw [if_pos h3]
      · rw [if_neg h3] at h
        exact absurd rfl h

/-! ### Claim theorems C2 and C10 -/

/-- C2: for a `beginFrame`/`endFrame` pair with frame start `t0` and frame end
`t1` (measured frame time `t = t1 - t0 ≥ 0`) and positive target FPS `f`, after
`endFrame` the metrics satisfy `frameTime = t`,
`frameBudgetUsage = clamp(t / (1000/f), 0, 1)` and
`hasFrameDrops ↔ t > 1.2 × (1000/f)`. -/
theorem endFrame_budget_spec :
    ∀ (sqrtQ : ℚ → ℚ) (s : MonitorState) (t0 t1 fpsReading : ℚ)
      (mem : Option (ℚ × ℚ)) (rend : Option (ℕ × ℕ)),
    t0 ≤ t1 → 0 < s.settings.targetFps →
    (endFrame sqrtQ (beginFrame s t0) t1 fpsReading mem rend).1.metrics.frameTime = t1 - t0 ∧
    (endFrame sqrtQ (beginFrame s t0) t1 fpsReading mem rend).1.metrics.frameBudgetUsage
      = max 0 (min 1 ((t1 - t0) / (1000 / s.settings.targetFps))) ∧
    ((endFrame sqrtQ (beginFrame s t0) t1 fpsReading mem rend).1.metrics.hasFrameDrops = true
      ↔ t1 - t0 > (12/10) * (1000 / s.settings.targetFps)) := by
  intro sqrtQ s t0 t1 r mem rend ht hf
  have hb : (beginFrame s t0).frameStartTime = t0 := rfl
  have hbs : (beginFrame s t0).settings = s.settings := rfl
  have hx : (0:ℚ) ≤ (t1 - t0) / (1000 / s.settings.targetFps) :=
    div_nonneg (sub_nonneg.mpr ht) (by positivity)
  refine ⟨?_, ?_, ?_⟩
  · rw [endFrame, check_frameTime, updateStats_frameTime, hb]
  · rw [endFrame, check_budget, updateStats_budget, hb, hbs,
      max_eq_right (le_min zero_le_one hx)]
  · rw [endFrame, check_drops, updateStats_drops, hb, hbs]
    simp [decide_eq_true_eq, mul_comm]

/-- Witness for C2: a 10 ms frame at default settings. -/
theorem endFrame_budget_spec_witness :
    (endFrame (fun _ => 0) (beginFrame (initMonitor defaultSettings) 0) 10 0
        none none).1.metrics.frameTime = 10 - 0 ∧
    (endFrame (fun _ => 0) (beginFrame (initMonitor defaultSettings) 0) 10 0
        none none).1.metrics.frameBudgetUsage
      = max 0 (min 1 ((10 - 0) / (1000 / (initMonitor defaultSettings).settings.targetFps))) ∧
    ((endFrame (fun _ => 0) (beginFrame (initMonitor defaultSettings) 0) 10 0
        none none).1.metrics.hasFrameDrops = true
      ↔ 10 - 0 > (12/10) * (1000 / (initMonitor defaultSettings).settings.targetFps)) :=
  endFrame_budget_spec (fun _ => 0) (initMonitor defaultSettings) 0 10 0 none none
    (by norm_num) (by norm_num [initMonitor, defaultSettings])

/-- C10: `endFrame` (and therefore its `checkQualityAdjustment` call) never
modifies `currentQualityLevel` — nor does `beginFrame` or the statistics block —
and the target it writes, when it writes one, is the rule cascade's proposal
`proposedTarget`, which starts from `currentQualityLevel` (unchanged by the
statistics block), not from the previously proposed target. -/
theorem endFrame_preserves_current :
    ∀ (sqrtQ : ℚ → ℚ) (s : MonitorState) (now fpsReading t : ℚ)
      (mem : Option (ℚ × ℚ)) (rend : Option (ℕ × ℕ)),
    (endFrame sqrtQ s now fpsReading mem rend).1.metrics.currentQualityLevel
      = s.metrics.currentQualityLevel ∧
    (beginFrame s t).metrics.currentQualityLevel = s.metrics.currentQualityLevel ∧
    (updateStats sqrtQ s now fpsReading mem rend).metrics.currentQualityLevel
      = s.metrics.currentQualityLevel ∧
    ((endFrame sqrtQ s now fpsReading mem rend).1.metrics.targetQualityLevel
        = s.metrics.targetQualityLevel ∨
      (endFrame sqrtQ s now fpsReading mem rend).1.metrics.targetQualityLevel
        = (proposedTarget (updateStats sqrtQ s now fpsReading mem rend).metrics s.settings).1) := by
  intro sqrtQ s now r t mem rend
  refine ⟨?_, rfl, updateStats_currentQuality sqrtQ s now r mem rend, ?_⟩
  · rw [endFrame, check_currentQuality, updateStats_currentQuality]
  · have hc := check_target_cases (updateStats sqrtQ s now r mem rend) now
    rw [updateStats_settings] at hc
    rcases hc with h | h
    · left
      rw [endFrame, h, updateStats_targetQuality]
    · right
      rw [endFrame]
      exact h

/-! ### The monitor–LOD system (C1) -/

/-- The monitor wired to the LOD manager: the LodManager constructor installs
`onQualityChange = (q) => this.setQualityLevel(q)`, so every quality-change
callback fired by the monitor drives `LodManager.setQualityLevel`. -/
structure SystemState where
  pm : MonitorState
  lod : LodState
deriving DecidableEq

/-- An externally observable event: a `beginFrame`/`endFrame` pair, or an
explicit `PerformanceMonitor.setQualityLevel` call. -/
inductive SysEvent
  | frame (inp : FrameInput)
  | setQuality (level : ℤ)
deriving DecidableEq

/-- One event acting on the wired system: `endFrame`'s callback (when fired)
drives `LodManager.setQualityLevel`; an explicit monitor `setQualityLevel` call
fires the callback unconditionally with the clamped level. -/
def sysStep (sqrtQ : ℚ → ℚ) (s : SystemState) : SysEvent → SystemState
  | SysEvent.frame inp =>
      let r := endFrame sqrtQ (beginFrame s.pm inp.beginTime) inp.endTime
                 inp.fpsReading inp.mem inp.rend
      { pm := r.1,
        lod := match r.2.2 with
               | some q => (lodSetQualityLevel s.lod q).1
               | none => s.lod }
  | SysEvent.setQuality n =>
      let r := pmSetQualityLevel s.pm n
      { pm := r.1, lod := (lodSetQualityLevel s.lod r.2).1 }

/-- A sequence of events acting on the wired system. -/
def sysRun (sqrtQ : ℚ → ℚ) (s : SystemState) (evs : List SysEvent) : SystemState :=
  evs.foldl (sysStep sqrtQ) s

/-- System construction: the LodManager is built over the monitor (its
constructor seeds the level from the device-capability guess and pushes it into
the monitor via `setQualityLevel`). -/
def initSystem (cfg : PerfSettings) (levels : List LodLevel) (guess : ℕ)
    (r : RendererState) : SystemState :=
  let lod := initLod levels guess r
  { pm := (pmSetQualityLevel (initMonitor cfg) (lod.currentLevel : ℤ)).1, lod := lod }

/-- The clamping invariant of C1: both monitor quality levels lie in
`[0, qualityLevels - 1]` and the LOD index is a valid index of the level
table. -/
def qualityInvariant (s : SystemState) : Prop :=
  1 ≤ s.pm.settings.qualityLevels ∧
  0 ≤ s.pm.metrics.currentQualityLevel ∧
  s.pm.metrics.currentQualityLevel ≤ s.pm.settings.qualityLevels - 1 ∧
  0 ≤ s.pm.metrics.targetQualityLevel ∧
  s.pm.metrics.targetQualityLevel ≤ s.pm.settings.qualityLevels - 1 ∧
  s.lod.currentLevel < s.lod.levels.length

theorem proposedTarget_bounds (m : PerfMetrics) (cfg : PerfSettings)
    (h1 : 1 ≤ cfg.qualityLevels) (h2 : 0 ≤ m.currentQualityLevel)
    (h3 : m.currentQualityLevel ≤ cfg.qualityLevels - 1) :
    0 ≤ (proposedTarget m cfg).1 ∧ (proposedTarget m cfg).1 ≤ cfg.qualityLevels - 1 := by
  unfold proposedTarget
  dsimp only
  split_ifs <;> constructor <;> dsimp only <;> omega

theorem lodSet_levels (s : LodState) (n : ℤ) :
    ((lodSetQualityLevel s n).1).levels = s.levels := by
  unfold lodSetQualityLevel
  dsimp only
  split <;> rfl

theorem lodSet_level_lt (s : LodState) (n : ℤ) (h : s.currentLevel < s.levels.length) :
    ((lodSetQualityLevel s n).1).currentLevel < ((lodSetQualityLevel s n).1).levels.length := by
  rw [lodSet_levels]
  unfold lodSetQualityLevel
  dsimp only
  split
  · exact h
  · show clampLevel s.levels.length n < s.levels.length
    unfold clampLevel
    omega

theorem endFrame_settings (sqrtQ : ℚ → ℚ) (s : MonitorState) (now r : ℚ)
    (mem : Option (ℚ × ℚ)) (rend : Option (ℕ × ℕ)) :
    (endFrame sqrtQ s now r mem rend).1.settings = s.settings := by
  rw [endFrame, check_settings, updateStats_settings]

theorem sysStep_invariant (sqrtQ : ℚ → ℚ) (s : SystemState) (ev : SysEvent)
    (h : qualityInvariant s) : qualityInvariant (sysStep sqrtQ s ev) := by
  obtain ⟨hq, h1, h2, h3, h4, h5⟩ := h
  cases ev with
  | frame inp =>
      unfold sysStep
      dsimp only
      set us := updateStats sqrtQ (beginFrame s.pm inp.beginTime) inp.endTime
        inp.fpsReading inp.mem inp.rend with hus
      have hend : endFrame sqrtQ (beginFrame s.pm inp.beginTime) inp.endTime
          inp.fpsReading inp.mem inp.rend = checkQualityAdjustment us inp.endTime := rfl
      have hus_set : us.settings = s.pm.settings := by
        rw [hus, updateStats_settings]; rfl
      have hus_cur : us.metrics.currentQualityLevel = s.pm.metrics.currentQualityLevel := by
        rw [hus, updateStats_currentQuality]; rfl
      have hus_tar : us.metrics.targetQualityLevel = s.pm.metrics.targetQualityLevel := by
        rw [hus, updateStats_targetQuality]; rfl
      rw [hend]
      have hset : (checkQualityAdjustment us inp.endTime).1.settings = s.pm.settings := by
        rw [check_settings, hus_set]
      have hcur : (checkQualityAdjustment us inp.endTime).1.metrics.currentQualityLevel
          = s.pm.metrics.currentQualityLevel := by
        rw [check_currentQuality, hus_cur]
      have htarb : 0 ≤ (checkQualityAdjustment us inp.endTime).1.metrics.targetQualityLevel ∧
          (checkQualityAdjustment us inp.endTime).1.metrics.targetQualityLevel
            ≤ s.pm.settings.qualityLevels - 1 := by
        rcases check_target_cases us inp.endTime with ht | ht
        · rw [ht, hus_tar]
          exact ⟨h3, h4⟩
        · rw [ht, hus_set]
          exact proposedTarget_bounds us.metrics s.pm.settings hq
            (by rw [hus_cur]; exact h1) (by rw [hus_cur]; exact h2)
      refine ⟨by rw [hset]; exact hq, by rw [hcur]; exact h1,
        by rw [hcur, hset]; exact h2, htarb.1, by rw [hset]; exact htarb.2, ?_⟩
      cases hcb : (checkQualityAdjustment us inp.endTime).2.2 with
      | none => exact h5
      | some q => exact lodSet_level_lt s.lod q h5
  | setQuality n =>
      have hb : 0 ≤ max 0 (min (s.pm.settings.qualityLevels - 1) n) ∧
          max 0 (min (s.pm.settings.qualityLevels - 1) n) ≤ s.pm.settings.qualityLevels - 1 := by
        omega
      exact ⟨hq, hb.1, hb.2, hb.1, hb.2, lodSet_level_lt s.lod _ h5⟩

theorem sysRun_invariant (sqrtQ : ℚ → ℚ) (evs : List SysEvent) :
    ∀ s : SystemState, qualityInvariant s → qualityInvariant (sysRun sqrtQ s evs) := by
  induction evs with
  | nil => exact fun s h => h
  | cons e t ih =>
      intro s h
      exact ih _ (sysStep_invariant sqrtQ s e h)

theorem sysStep_settings (sqrtQ : ℚ → ℚ) (s : SystemState) (ev : SysEvent) :
    (sysStep sqrtQ s ev).pm.settings = s.pm.settings := by
  cases ev with
  | frame inp =>
      show (endFrame sqrtQ (beginFrame s.pm inp.beginTime) inp.endTime
        inp.fpsReading inp.mem inp.rend).1.settings = s.pm.settings
      rw [endFrame_settings]
      rfl
  | setQuality n => rfl

theorem sysStep_levels (sqrtQ : ℚ → ℚ) (s : SystemState) (ev : SysEvent) :
    (sysStep sqrtQ s ev).lod.levels = s.lod.levels := by
  cases ev with
  | frame inp =>
      unfold sysStep
      dsimp only
      cases hcb : (endFrame sqrtQ (beginFrame s.pm inp.beginTime) inp.endTime
          inp.fpsReading inp.mem inp.rend).2.2 with
      | none => rfl
      | some q => exact lodSet_levels s.lod q
  | setQuality n => exact lodSet_levels s.lod _

theorem sysRun_settings (sqrtQ : ℚ → ℚ) (evs : List SysEvent) :
    ∀ s : SystemState, (sysRun sqrtQ s evs).pm.settings = s.pm.settings := by
  induction evs with
  | nil => exact fun s => rfl
  | cons e t ih =>
      intro s
      exact (ih (sysStep sqrtQ s e)).trans (sysStep_settings sqrtQ s e)

theorem sysRun_levels (sqrtQ : ℚ → ℚ) (evs : List SysEvent) :
    ∀ s : SystemState, (sysRun sqrtQ s evs).lod.levels = s.lod.levels := by
  induction evs with
  | nil => exact fun s => rfl
  | cons e t ih =>
      intro s
      exact (ih (sysStep sqrtQ s e)).trans (sysStep_levels sqrtQ s e)

theorem initSystem_settings (cfg : PerfSettings) (levels : List LodLevel) (guess : ℕ)
    (r : RendererState) : (initSystem cfg levels guess r).pm.settings = cfg := rfl

theorem initSystem_levels (cfg : PerfSettings) (levels : List LodLevel) (guess : ℕ)
    (r : RendererState) : (initSystem cfg levels guess r).lod.levels = levels := rfl

theorem initSystem_invariant (cfg : PerfSettings) (levels : List LodLevel) (guess : ℕ)
    (r : RendererState) (h1 : 1 ≤ cfg.qualityLevels) (h2 : levels ≠ []) :
    qualityInvariant (initSystem cfg levels guess r) := by
  have hlen : 0 < levels.length := List.length_pos.mpr h2
  have hc : 0 ≤ max 0 (min (cfg.qualityLevels - 1) ((min guess (levels.length - 1) : ℕ) : ℤ)) ∧
      max 0 (min (cfg.qualityLevels - 1) ((min guess (levels.length - 1) : ℕ) : ℤ))
        ≤ cfg.qualityLevels - 1 := by omega
  have hl : min guess (levels.length - 1) < levels.length := by omega
  exact ⟨h1, hc.1, hc.2, hc.1, hc.2, hl⟩

/-- C1: over every sequence of `beginFrame`/`endFrame` evaluations (whose
automatic adjustments, including the stacking `gcTime` trigger, drive the LOD
manager through the quality-change callback) and explicit `setQualityLevel`
calls, the monitor's `currentQualityLevel` and `targetQualityLevel` always lie
in `[0, qualityLevels - 1]` and the LOD manager's level index always lies in
`[0, levels.length - 1]`. -/
theorem quality_always_clamped :
    ∀ (sqrtQ : ℚ → ℚ) (cfg : PerfSettings) (levels : List LodLevel) (guess : ℕ)
      (r : RendererState) (evs : List SysEvent),
    1 ≤ cfg.qualityLevels → levels ≠ [] →
    0 ≤ (sysRun sqrtQ (initSystem cfg levels guess r) evs).pm.metrics.currentQualityLevel ∧
    (sysRun sqrtQ (initSystem cfg levels guess r) evs).pm.metrics.currentQualityLevel
      ≤ cfg.qualityLevels - 1 ∧
    0 ≤ (sysRun sqrtQ (initSystem cfg levels guess r) evs).pm.metrics.targetQualityLevel ∧
    (sysRun sqrtQ (initSystem cfg levels guess r) evs).pm.metrics.targetQualityLevel
      ≤ cfg.qualityLevels - 1 ∧
    (sysRun sqrtQ (initSystem cfg levels guess r) evs).lod.currentLevel
      ≤ levels.length - 1 := by
  intro sqrtQ cfg levels guess r evs h1 h2
  have inv := sysRun_invariant sqrtQ evs _ (initSystem_invariant cfg levels guess r h1 h2)
  obtain ⟨hq, i1, i2, i3, i4, i5⟩ := inv
  rw [sysRun_settings, initSystem_settings] at i2 i4
  rw [sysRun_levels, initSystem_levels] at i5
  exact ⟨i1, i2, i3, i4, by omega⟩

/-- Witness for C1: the default settings and table, a capability guess of 2,
and one explicit `setQualityLevel(9)` call (clamped to 4). -/
theorem quality_always_clamped_witness :
    0 ≤ (sysRun (fun _ => 0) (initSystem defaultSettings DEFAULT_LOD_LEVELS 2 initRenderer)
        [SysEvent.setQuality 9]).pm.metrics.currentQualityLevel ∧
    (sysRun (fun _ => 0) (initSystem defaultSettings DEFAULT_LOD_LEVELS 2 initRenderer)
        [SysEvent.setQuality 9]).pm.metrics.currentQualityLevel
      ≤ defaultSettings.qualityLevels - 1 ∧
    0 ≤ (sysRun (fun _ => 0) (initSystem defaultSettings DEFAULT_LOD_LEVELS 2 initRenderer)
        [SysEvent.setQuality 9]).pm.metrics.targetQualityLevel ∧
    (sysRun (fun _ => 0) (initSystem defaultSettings DEFAULT_LOD_LEVELS 2 initRenderer)
        [SysEvent.setQuality 9]).pm.metrics.targetQualityLevel
      ≤ defaultSettings.qualityLevels - 1 ∧
    (sysRun (fun _ => 0) (initSystem defaultSettings DEFAULT_LOD_LEVELS 2 initRenderer)
        [SysEvent.setQuality 9]).lod.currentLevel
      ≤ DEFAULT_LOD_LEVELS.length - 1 :=
  quality_always_clamped (fun _ => 0) defaultSettings DEFAULT_LOD_LEVELS 2 initRenderer
    [SysEvent.setQuality 9] (by norm_num [defaultSettings]) (by simp [DEFAULT_LOD_LEVELS])

theorem mem_pushHistory {h : List ℚ} {x y : ℚ} (hy : y ∈ pushHistory h x) : y ∈ h ∨ y = x := by
  unfold pushHistory at hy
  dsimp only at hy
  split at hy
  · have := List.mem_of_mem_tail hy
    rcases List.mem_append.mp this with h1 | h1
    · exact Or.inl h1
    · right; simpa using h1
  · rcases List.mem_append.mp hy with h1 | h1
    · exact Or.inl h1
    · right; simpa using h1

theorem pushHistory_ne_nil (h : List ℚ) (x : ℚ) : pushHistory h x ≠ [] := by
  unfold pushHistory
  dsimp only
  split
  · next hlen =>
      have hl : (h ++ [x]).length = h.length + 1 := by simp
      apply List.ne_nil_of_length_pos
      rw [List.length_tail, hl]
      simp [historySize] at hlen
      omega
  · simp

theorem avg_of_const (h : List ℚ) (v : ℚ) (hall : ∀ x ∈ h, x = v) (hne : h ≠ []) :
    h.sum / (h.length : ℚ) = v := by
  have hsum : h.sum = h.length • v := List.sum_eq_card_nsmul h v hall
  rw [hsum, nsmul_eq_mul]
  have hlen0 : h.length ≠ 0 := by
    simpa [List.length_eq_zero] using hne
  have hlen : (h.length : ℚ) ≠ 0 := Nat.cast_ne_zero.mpr hlen0
  field_simp

theorem var_of_const (h : List ℚ) (v : ℚ) (hall : ∀ x ∈ h, x = v) :
    (h.map fun f => (f - v) ^ 2).sum = 0 := by
  apply List.sum_eq_zero
  intro y hy
  rcases List.mem_map.mp hy with ⟨x, hx, rfl⟩
  rw [hall x hx]
  ring

theorem updateStats_lastFrameTime (sqrtQ : ℚ → ℚ) (s : MonitorState) (now r : ℚ)
    (mem : Option (ℚ × ℚ)) (rend : Option (ℕ × ℕ)) :
    (updateStats sqrtQ s now r mem rend).lastFrameTime = now := by
  unfold updateStats
  rcases mem with _ | ⟨a, b⟩ <;> rfl

theorem updateStats_fpsHistory (sqrtQ : ℚ → ℚ) (s : MonitorState) (now r : ℚ)
    (mem : Option (ℚ × ℚ)) (rend : Option (ℕ × ℕ)) :
    (updateStats sqrtQ s now r mem rend).fpsHistory
      = pushHistory s.fpsHistory (if r = 0 then 60 else r) := by
  unfold updateStats
  rcases mem with _ | ⟨a, b⟩ <;> rfl

theorem updateStats_averageFps (sqrtQ : ℚ → ℚ) (s : MonitorState) (now r : ℚ)
    (mem : Option (ℚ × ℚ)) (rend : Option (ℕ × ℕ)) :
    (updateStats sqrtQ s now r mem rend).metrics.averageFps
      = (pushHistory s.fpsHistory (if r = 0 then 60 else r)).sum
          / ((pushHistory s.fpsHistory (if r = 0 then 60 else r)).length : ℚ) := by
  rcases mem with _ | ⟨a, b⟩ <;> rcases rend with _ | ⟨c, d⟩ <;>
    simp [updateStats, apply_ite PerfMetrics.averageFps]

theorem updateStats_gcTime_decay (sqrtQ : ℚ → ℚ) (s : MonitorState) (now r : ℚ)
    (mem : Option (ℚ × ℚ)) (rend : Option (ℕ × ℕ))
    (h : ¬(s.lastFrameTime > 0 ∧ now - s.lastFrameTime > gcDetectionThreshold)) :
    (updateStats sqrtQ s now r mem rend).metrics.gcTime = s.metrics.gcTime * (9/10) := by
  rcases mem with _ | ⟨a, b⟩ <;> rcases rend with _ | ⟨c, d⟩ <;>
    simp [updateStats, apply_ite PerfMetrics.gcTime, h]

theorem updateStats_memCon_none (sqrtQ : ℚ → ℚ) (s : MonitorState) (now r : ℚ)
    (rend : Option (ℕ × ℕ)) :
    (updateStats sqrtQ s now r none rend).metrics.isMemoryConstrained
      = s.metrics.isMemoryConstrained := by
  rcases rend with _ | ⟨c, d⟩ <;>
    simp [updateStats, apply_ite PerfMetrics.isMemoryConstrained]

theorem updateStats_critical (sqrtQ : ℚ → ℚ) (s : MonitorState) (now r : ℚ)
    (mem : Option (ℚ × ℚ)) (rend : Option (ℕ × ℕ)) :
    (updateStats sqrtQ s now r mem rend).metrics.isPerformanceCritical
      = decide ((pushHistory s.fpsHistory (if r = 0 then 60 else r)).sum
            / ((pushHistory s.fpsHistory (if r = 0 then 60 else r)).length : ℚ)
            < s.settings.criticalFps ∨
          min 1 ((now - s.frameStartTime) / (1000 / s.settings.targetFps)) > 95/100) := by
  rcases mem with _ | ⟨a, b⟩ <;> rcases rend with _ | ⟨c, d⟩ <;>
    simp [updateStats, apply_ite PerfMetrics.averageFps]

theorem updateStats_stability_const (sqrtQ : ℚ → ℚ) (hs0 : sqrtQ 0 = 0)
    (s : MonitorState) (now r : ℚ) (mem : Option (ℚ × ℚ)) (rend : Option (ℕ × ℕ))
    (hall : ∀ x ∈ s.fpsHistory, x = (if r = 0 then 60 else r))
    (hst : s.metrics.fpsStability = 1) :
    (updateStats sqrtQ s now r mem rend).metrics.fpsStability = 1 := by
  set c : ℚ := if r = 0 then 60 else r with hc
  have hall2 : ∀ x ∈ pushHistory s.fpsHistory c, x = c := by
    intro x hx
    rcases mem_pushHistory hx with h1 | h1
    · exact hall x h1
    · exact h1
  have havg : (pushHistory s.fpsHistory c).sum
      / ((pushHistory s.fpsHistory c).length : ℚ) = c :=
    avg_of_const _ _ hall2 (pushHistory_ne_nil _ _)
  have hvar : ((pushHistory s.fpsHistory c).map fun f => (f - c) ^ 2).sum = 0 :=
    var_of_const _ _ hall2
  rcases mem with _ | ⟨a, b⟩ <;> rcases rend with _ | ⟨e, d⟩ <;>
  · simp only [updateStats, apply_ite PerfMetrics.fpsStability]
    simp only [← hc]
    split
    · rw [havg, hvar]
      simp [hs0]
    · split <;> exact hst

/-- Facts preserved along "quiet" frames (all timestamps 0, default FPS
reading, no memory / renderer info), used to build a concrete reachable state
past the 100-frame warm-up. -/
def QuietState (s : MonitorState) : Prop :=
  s.settings = defaultSettings ∧
  s.lastAdjustmentTime = 0 ∧
  s.lastFrameTime = 0 ∧
  s.metrics.gcTime = 0 ∧
  s.metrics.isMemoryConstrained = false ∧
  s.metrics.fpsStability = 1 ∧
  (∀ x ∈ s.fpsHistory, x = 60)

theorem quiet_step (sqrtQ : ℚ → ℚ) (hs0 : sqrtQ 0 = 0) (s : MonitorState)
    (h : QuietState s) :
    QuietState (frameStep sqrtQ s ⟨0, 0, 0, none, none⟩) ∧
    (frameStep sqrtQ s ⟨0, 0, 0, none, none⟩).frameCount = s.frameCount + 1 := by
  obtain ⟨hset, hla, hlf, hgc, hmc, hst, hall⟩ := h
  set us := updateStats sqrtQ (beginFrame s 0) 0 0 none none with hus
  have hg : (0 : ℚ) - us.lastAdjustmentTime < us.settings.adjustmentPeriod := by
    rw [hus, updateStats_lastAdjustmentTime, updateStats_settings]
    show (0 : ℚ) - s.lastAdjustmentTime < s.settings.adjustmentPeriod
    rw [hla, hset]
    norm_num [defaultSettings]
  have hfs : frameStep sqrtQ s ⟨0, 0, 0, none, none⟩ = us := by
    show (checkQualityAdjustment us 0).1 = us
    rw [check_early us 0 hg]
  rw [hfs]
  refine ⟨⟨?_, ?_, ?_, ?_, ?_, ?_, ?_⟩, ?_⟩
  · rw [hus, updateStats_settings]
    exact hset
  · rw [hus, updateStats_lastAdjustmentTime]
    exact hla
  · rw [hus, updateStats_lastFrameTime]
  · rw [hus, updateStats_gcTime_decay]
    · show s.metrics.gcTime * (9 / 10) = 0
      rw [hgc]; ring
    · show ¬(s.lastFrameTime > 0 ∧ (0 : ℚ) - s.lastFrameTime > gcDetectionThreshold)
      rw [hlf]
      norm_num
  · rw [hus, updateStats_memCon_none]
    exact hmc
  · exact updateStats_stability_const sqrtQ hs0 _ 0 0 none none (by simpa using hall) hst
  · intro x hx
    rw [hus, updateStats_fpsHistory] at hx
    simp only [if_pos rfl] at hx
    rcases mem_pushHistory hx with h1 | h1
    · exact hall x h1
    · exact h1
  · rw [hus, updateStats_frameCount]
    rfl

theorem quiet_run (sqrtQ : ℚ → ℚ) (hs0 : sqrtQ 0 = 0) :
    ∀ (n : ℕ) (s : MonitorState), QuietState s →
    QuietState (runFrames sqrtQ s (List.replicate n ⟨0, 0, 0, none, none⟩)) ∧
    (runFrames sqrtQ s (List.replicate n ⟨0, 0, 0, none, none⟩)).frameCount
      = s.frameCount + n := by
  intro n
  induction n with
  | zero => exact fun s h => ⟨h, rfl⟩
  | succ k ih =>
      intro s h
      have hstep := quiet_step sqrtQ hs0 s h
      have hk := ih (frameStep sqrtQ s ⟨0, 0, 0, none, none⟩) hstep.1
      refine ⟨hk.1, ?_⟩
      show (runFrames sqrtQ (frameStep sqrtQ s ⟨0, 0, 0, none, none⟩)
        (List.replicate k ⟨0, 0, 0, none, none⟩)).frameCount = s.frameCount + (k + 1)
      rw [hk.2, hstep.2]
      omega

theorem proposedTarget_noop (m : PerfMetrics) (cfg : PerfSettings)
    (h1 : m.isMemoryConstrained = false) (h2 : m.isPerformanceCritical = false)
    (h3 : ¬(m.frameBudgetUsage > 9/10 ∧ m.fpsStability < 7/10))
    (h4 : ¬(m.averageFps > cfg.targetFps * (11/10) ∧ m.fpsStability > 8/10 ∧
            m.frameBudgetUsage < 7/10))
    (h5 : ¬(m.averageFps < cfg.targetFps * (9/10) ∨ m.fpsStability < 6/10))
    (h6 : ¬(m.gcTime > 30)) :
    proposedTarget m cfg = (m.currentQualityLevel, false) := by
  unfold proposedTarget
  dsimp only
  rw [if_neg h6, if_neg (show ¬(m.isMemoryConstrained = true) by simp [h1]),
    if_neg (show ¬(m.isPerformanceCritical = true) by simp [h2]),
    if_neg h3, if_neg h4, if_neg h5]

theorem probe_eval (sqrtQ : ℚ → ℚ) (hs0 : sqrtQ 0 = 0) (s : MonitorState) (T : ℚ)
    (hset : s.settings = defaultSettings) (hla : s.lastAdjustmentTime = 0)
    (hT : 2000 ≤ T) (hfc : 99 ≤ s.frameCount)
    (hgc : s.metrics.gcTime = 0)
    (hlf : ¬(s.lastFrameTime > 0 ∧ T - s.lastFrameTime > gcDetectionThreshold))
    (hmc : s.metrics.isMemoryConstrained = false)
    (hst : s.metrics.fpsStability = 1)
    (hall : ∀ x ∈ s.fpsHistory, x = 60) :
    (endFrame sqrtQ (beginFrame s T) T 0 none none).2.1 = true ∧
    (endFrame sqrtQ (beginFrame s T) T 0 none none).1
      = updateStats sqrtQ (beginFrame s T) T 0 none none ∧
    (updateStats sqrtQ (beginFrame s T) T 0 none none).settings = defaultSettings ∧
    (updateStats sqrtQ (beginFrame s T) T 0 none none).lastAdjustmentTime = 0 ∧
    (updateStats sqrtQ (beginFrame s T) T 0 none none).frameCount = s.frameCount + 1 ∧
    (updateStats sqrtQ (beginFrame s T) T 0 none none).metrics.gcTime = 0 ∧
    (updateStats sqrtQ (beginFrame s T) T 0 none none).lastFrameTime = T ∧
    (updateStats sqrtQ (beginFrame s T) T 0 none none).metrics.isMemoryConstrained = false ∧
    (updateStats sqrtQ (beginFrame s T) T 0 none none).metrics.fpsStability = 1 ∧
    (∀ x ∈ (updateStats sqrtQ (beginFrame s T) T 0 none none).fpsHistory, x = (60 : ℚ)) := by
  set us := updateStats sqrtQ (beginFrame s T) T 0 none none with hus
  have hall60 : ∀ x ∈ (beginFrame s T).fpsHistory, x = ((60 : ℚ)) := hall
  have hpushall : ∀ x ∈ pushHistory s.fpsHistory 60, x = (60 : ℚ) := by
    intro x hx
    rcases mem_pushHistory hx with h1 | h1
    · exact hall x h1
    · exact h1
  have havg60 : (pushHistory s.fpsHistory 60).sum
      / ((pushHistory s.fpsHistory 60).length : ℚ) = 60 :=
    avg_of_const _ _ hpushall (pushHistory_ne_nil _ _)
  have hus_set : us.settings = defaultSettings := by
    rw [hus, updateStats_settings]; exact hset
  have hus_la : us.lastAdjustmentTime = 0 := by
    rw [hus, updateStats_lastAdjustmentTime]; exact hla
  have hus_fc : us.frameCount = s.frameCount + 1 := by
    rw [hus, updateStats_frameCount]
    rfl
  have hus_avg : us.metrics.averageFps = 60 := by
    rw [hus, updateStats_averageFps]
    simpa using havg60
  have hus_budget : us.metrics.frameBudgetUsage = 0 := by
    rw [hus, updateStats_budget]
    show min 1 ((T - T) / (1000 / s.settings.targetFps)) = 0
    norm_num
  have hus_mc : us.metrics.isMemoryConstrained = false := by
    rw [hus, updateStats_memCon_none]; exact hmc
  have hus_st : us.metrics.fpsStability = 1 :=
    updateStats_stability_const sqrtQ hs0 _ T 0 none none (by simpa using hall) hst
  have hus_gc : us.metrics.gcTime = 0 := by
    rw [hus, updateStats_gcTime_decay]
    · show s.metrics.gcTime * (9 / 10) = 0
      rw [hgc]; ring
    · exact hlf
  have hus_crit : us.metrics.isPerformanceCritical = false := by
    rw [hus, updateStats_critical]
    apply decide_eq_false
    have hcf : (if (0:ℚ) = 0 then (60:ℚ) else 0) = 60 := by norm_num
    have hb1 : (beginFrame s T).settings = defaultSettings := hset
    have hb2 : (beginFrame s T).frameStartTime = T := rfl
    have hb3 : (beginFrame s T).fpsHistory = s.fpsHistory := rfl
    rw [hcf, hb1, hb2, hb3, havg60, sub_self, zero_div]
    push_neg
    constructor
    · norm_num [defaultSettings]
    · norm_num [defaultSettings]
  have hprop : proposedTarget us.metrics us.settings = (us.metrics.currentQualityLevel, false) := by
    apply proposedTarget_noop
    · exact hus_mc
    · exact hus_crit
    · rw [hus_budget]
      norm_num
    · rw [hus_avg, hus_set]
      norm_num [defaultSettings]
    · rw [hus_avg, hus_st, hus_set]
      norm_num [defaultSettings]
    · rw [hus_gc]
      norm_num
  have hg1 : ¬(T - us.lastAdjustmentTime < us.settings.adjustmentPeriod) := by
    rw [hus_la, hus_set]
    simp only [defaultSettings]
    push_neg
    linarith
  have hg2 : ¬(us.frameCount < 100) := by omega
  have hus_lf : us.lastFrameTime = T := by
    rw [hus, updateStats_lastFrameTime]
  have hus_hist : ∀ x ∈ us.fpsHistory, x = (60 : ℚ) := by
    intro x hx
    rw [hus, updateStats_fpsHistory] at hx
    simp only [if_pos rfl] at hx
    rcases mem_pushHistory hx with h1 | h1
    · exact hall x h1
    · exact h1
  have hmain : (checkQualityAdjustment us T).2.1 = true ∧ (checkQualityAdjustment us T).1 = us := by
    unfold checkQualityAdjustment
    rw [if_neg hg1, if_neg hg2]
    dsimp only
    rw [if_neg (by rw [hprop]; simp)]
    exact ⟨rfl, rfl⟩
  exact ⟨hmain.1, hmain.2, hus_set, hus_la, hus_fc, hus_gc, hus_lf, hus_mc, hus_st, hus_hist⟩

/-- Counterexample to C3 as stated: after 99 quiet warm-up frames, two
`endFrame` calls 1 ms apart (5000 and 5001, both more than `adjustmentPeriod`
after the never-updated `lastAdjustmentTime = 0`) BOTH evaluate the
priority-ordered adjustment rules, because the first evaluation changes
nothing and therefore does not update `lastAdjustmentTime`. -/
theorem adjustment_throttling_counterexample :
    (endFrame (fun _ => 0) (beginFrame (runFrames (fun _ => 0) (initMonitor defaultSettings)
        (List.replicate 99 ⟨0, 0, 0, none, none⟩)) 5000) 5000 0 none none).2.1 = true ∧
    (endFrame (fun _ => 0)
      (beginFrame (endFrame (fun _ => 0) (beginFrame (runFrames (fun _ => 0)
          (initMonitor defaultSettings) (List.replicate 99 ⟨0, 0, 0, none, none⟩)) 5000)
          5000 0 none none).1 5001) 5001 0 none none).2.1 = true ∧
    (5001 : ℚ) - 5000 < defaultSettings.adjustmentPeriod := by
  have hinit : QuietState (initMonitor defaultSettings) := by
    refine ⟨rfl, rfl, rfl, rfl, rfl, rfl, ?_⟩
    intro x hx
    exact absurd hx (List.not_mem_nil x)
  have hq := quiet_run (fun _ => 0) rfl 99 (initMonitor defaultSettings) hinit
  obtain ⟨⟨hset, hla, hlf, hgc, hmc, hst, hall⟩, hfc⟩ := hq
  set s99 := runFrames (fun _ => 0) (initMonitor defaultSettings)
    (List.replicate 99 ⟨0, 0, 0, none, none⟩) with hs99
  have hfc99 : 99 ≤ s99.frameCount := by
    rw [hfc]
    norm_num [initMonitor]
  have hp1 := probe_eval (fun _ => 0) rfl s99 5000 hset hla (by norm_num) hfc99 hgc
    (by rw [hlf]; norm_num [gcDetectionThreshold]) hmc hst hall
  obtain ⟨hev1, heq1, u_set, u_la, u_fc, u_gc, u_lf, u_mc, u_st, u_hist⟩ := hp1
  refine ⟨hev1, ?_, by norm_num [defaultSettings]⟩
  rw [heq1]
  have hfc2 : 99 ≤ (updateStats (fun _ => 0) (beginFrame s99 5000) 5000 0 none none).frameCount := by
    omega
  have hp2 := probe_eval (fun _ => 0) rfl
    (updateStats (fun _ => 0) (beginFrame s99 5000) 5000 0 none none) 5001
    u_set u_la (by norm_num) hfc2 u_gc
    (by rw [u_lf]; norm_num [gcDetectionThreshold]) u_mc u_st u_hist
  exact hp2.1

theorem frameStep_frozen (sqrtQ : ℚ → ℚ) (s : MonitorState) (inp : FrameInput)
    (h : inp.endTime - s.lastAdjustmentTime < s.settings.adjustmentPeriod) :
    (frameStep sqrtQ s inp).metrics.targetQualityLevel = s.metrics.targetQualityLevel ∧
    (frameStep sqrtQ s inp).lastAdjustmentTime = s.lastAdjustmentTime ∧
    (frameStep sqrtQ s inp).settings = s.settings := by
  set us := updateStats sqrtQ (beginFrame s inp.beginTime) inp.endTime inp.fpsReading
    inp.mem inp.rend with hus
  have hla : us.lastAdjustmentTime = s.lastAdjustmentTime := by
    rw [hus, updateStats_lastAdjustmentTime]; rfl
  have hse : us.settings = s.settings := by
    rw [hus, updateStats_settings]; rfl
  have hg : inp.endTime - us.lastAdjustmentTime < us.settings.adjustmentPeriod := by
    rw [hla, hse]
    exact h
  have hstep : frameStep sqrtQ s inp = us := by
    show (checkQualityAdjustment us inp.endTime).1 = us
    rw [check_early us inp.endTime hg]
  rw [hstep]
  exact ⟨by rw [hus, updateStats_targetQuality]; rfl, hla, hse⟩

theorem runFrames_frozen (sqrtQ : ℚ → ℚ) (inputs : List FrameInput) :
    ∀ s : MonitorState,
    (∀ inp ∈ inputs, inp.endTime - s.lastAdjustmentTime < s.settings.adjustmentPeriod) →
    (runFrames sqrtQ s inputs).metrics.targetQualityLevel = s.metrics.targetQualityLevel ∧
    (runFrames sqrtQ s inputs).lastAdjustmentTime = s.lastAdjustmentTime ∧
    (runFrames sqrtQ s inputs).settings = s.settings := by
  induction inputs with
  | nil => exact fun s _ => ⟨rfl, rfl, rfl⟩
  | cons inp t ih =>
      intro s h
      have h0 := h inp (List.mem_cons_self inp t)
      have hs := frameStep_frozen sqrtQ s inp h0
      have ht := ih (frameStep sqrtQ s inp) (fun i hi => by
        rw [hs.2.1, hs.2.2]
        exact h i (List.mem_cons_of_mem _ hi))
      exact ⟨ht.1.trans hs.1, ht.2.1.trans hs.2.1, ht.2.2.trans hs.2.2⟩

/-- C3 (amended): the quality-adjustment rules are evaluated only after the
100-frame warm-up and only when at least `adjustmentPeriod` has elapsed since
`lastAdjustmentTime`; `lastAdjustmentTime` is stamped exactly when an
evaluation actually changes `targetQualityLevel`, so the target changes at most
once per `adjustmentPeriod` (no frame whose end time is within
`adjustmentPeriod` of `lastAdjustmentTime` can change it) — but rule
*evaluation* itself is not throttled between changes (see the
counterexample). -/
theorem adjustment_gating :
    (∀ (sqrtQ : ℚ → ℚ) (s : MonitorState) (now r : ℚ) (mem : Option (ℚ × ℚ))
        (rend : Option (ℕ × ℕ)),
      (endFrame sqrtQ s now r mem rend).2.1 = true →
      100 ≤ (endFrame sqrtQ s now r mem rend).1.frameCount ∧
      s.settings.adjustmentPeriod ≤ now - s.lastAdjustmentTime) ∧
    (∀ (sqrtQ : ℚ → ℚ) (s : MonitorState) (now r : ℚ) (mem : Option (ℚ × ℚ))
        (rend : Option (ℕ × ℕ)),
      (endFrame sqrtQ s now r mem rend).1.metrics.targetQualityLevel
        ≠ s.metrics.targetQualityLevel →
      (endFrame sqrtQ s now r mem rend).1.lastAdjustmentTime = now) ∧
    (∀ (sqrtQ : ℚ → ℚ) (s : MonitorState) (inputs : List FrameInput),
      (∀ inp ∈ inputs, inp.endTime - s.lastAdjustmentTime < s.settings.adjustmentPeriod) →
      (runFrames sqrtQ s inputs).metrics.targetQualityLevel
        = s.metrics.targetQualityLevel) := by
  refine ⟨?_, ?_, ?_⟩
  · intro sqrtQ s now r mem rend h
    have h' : (checkQualityAdjustment (updateStats sqrtQ s now r mem rend) now).2.1 = true := h
    constructor
    · have hw := check_evaluated_warm _ _ h'
      rw [updateStats_frameCount] at hw
      rw [endFrame, check_frameCount, updateStats_frameCount]
      exact hw
    · have hp := check_evaluated_period _ _ h'
      rw [updateStats_settings, updateStats_lastAdjustmentTime] at hp
      exact hp
  · intro sqrtQ s now r mem rend h
    have h2 : (checkQualityAdjustment (updateStats sqrtQ s now r mem rend) now).1.metrics.targetQualityLevel
        ≠ (updateStats sqrtQ s now r mem rend).metrics.targetQualityLevel := by
      rw [updateStats_targetQuality]
      exact h
    exact check_change_stamps _ _ h2
  · intro sqrtQ s inputs h
    exact (runFrames_frozen sqrtQ inputs s h).1

/-- Witness for C3 (amended), frozen-target part: one frame at time 0 within
the adjustment period leaves the target level unchanged. -/
theorem adjustment_gating_witness :
    (runFrames (fun _ => 0) (initMonitor defaultSettings)
        [⟨0, 0, 0, none, none⟩]).metrics.targetQualityLevel
      = (initMonitor defaultSettings).metrics.targetQualityLevel :=
  adjustment_gating.2.2 (fun _ => 0) (initMonitor defaultSettings) [⟨0, 0, 0, none, none⟩]
    (by
      intro inp hinp
      simp only [List.mem_singleton] at hinp
      subst hinp
      norm_num [initMonitor, defaultSettings])

/-- The rolling-window average used by `endFrame` for `averageFps`. -/
def windowAverage (h : List ℚ) : ℚ := h.sum / (h.length : ℚ)

/-- The stability formula of the `endFrame` recompute branch, over a window:
`max(0, 1 - sqrt(variance)/avg)` with variance the mean squared deviation. -/
def windowStability (sqrtQ : ℚ → ℚ) (h : List ℚ) : ℚ :=
  max 0 (1 - sqrtQ ((h.map fun f => (f - windowAverage h) ^ 2).sum / (h.length : ℚ))
    / windowAverage h)

/-- SPEC-SIDE definition, written from the spec's words
`fpsStability = max(0, 1 − stddev(fps)/avg(fps))` with the mathematical square
root, used only to compare against the stored `fpsStability`. -/
noncomputable def specFpsStability (hist : List ℚ) : ℝ :=
  max 0 (1 - Real.sqrt ((hist.map fun f =>
      ((f : ℝ) - ((hist.sum : ℚ) : ℝ) / (hist.length : ℝ)) ^ 2).sum / (hist.length : ℝ))
    / (((hist.sum : ℚ) : ℝ) / (hist.length : ℝ)))

theorem check_fpsHistory (s : MonitorState) (now : ℚ) :
    (checkQualityAdjustment s now).1.fpsHistory = s.fpsHistory := by
  unfold checkQualityAdjustment
  split
  · rfl
  · split
    · rfl
    · dsimp only
      split <;> rfl

theorem check_fpsStability (s : MonitorState) (now : ℚ) :
    (checkQualityAdjustment s now).1.metrics.fpsStability = s.metrics.fpsStability := by
  unfold checkQualityAdjustment
  split
  · rfl
  · split
    · rfl
    · dsimp only
      split <;> rfl

theorem check_averageFps (s : MonitorState) (now : ℚ) :
    (checkQualityAdjustment s now).1.metrics.averageFps = s.metrics.averageFps := by
  unfold checkQualityAdjustment
  split
  · rfl
  · split
    · rfl
    · dsimp only
      split <;> rfl

theorem updateStats_stability_keep (sqrtQ : ℚ → ℚ) (s : MonitorState) (now r : ℚ)
    (mem : Option (ℚ × ℚ)) (rend : Option (ℕ × ℕ))
    (h : ¬5 < (pushHistory s.fpsHistory (if r = 0 then 60 else r)).length) :
    (updateStats sqrtQ s now r mem rend).metrics.fpsStability
      = s.metrics.fpsStability := by
  set c : ℚ := if r = 0 then 60 else r with hc
  rcases mem with _ | ⟨a, b⟩ <;> rcases rend with _ | ⟨e, d⟩ <;>
  · simp only [updateStats, apply_ite PerfMetrics.fpsStability]
    simp only [← hc]
    rw [if_neg h]
    split <;> rfl

theorem updateStats_stability_recompute (sqrtQ : ℚ → ℚ) (s : MonitorState) (now r : ℚ)
    (mem : Option (ℚ × ℚ)) (rend : Option (ℕ × ℕ))
    (h : 5 < (pushHistory s.fpsHistory (if r = 0 then 60 else r)).length) :
    (updateStats sqrtQ s now r mem rend).metrics.fpsStability
      = windowStability sqrtQ (pushHistory s.fpsHistory (if r = 0 then 60 else r)) := by
  set c : ℚ := if r = 0 then 60 else r with hc
  rcases mem with _ | ⟨a, b⟩ <;> rcases rend with _ | ⟨e, d⟩ <;>
  · simp only [updateStats, apply_ite PerfMetrics.fpsStability]
    simp only [← hc]
    rw [if_pos h]
    simp [windowStability, windowAverage]

theorem windowStability_mem_unit (sqrtQ : ℚ → ℚ)
    (hsq : ∀ x : ℚ, 0 ≤ x → 0 ≤ sqrtQ x)
    (h : List ℚ) (hpos : ∀ x ∈ h, 0 < x) (hne : h ≠ []) :
    0 ≤ windowStability sqrtQ h ∧ windowStability sqrtQ h ≤ 1 := by
  have hlen : (0 : ℚ) < (h.length : ℚ) := by
    exact_mod_cast List.length_pos.mpr hne
  have havg : 0 < windowAverage h := by
    unfold windowAverage
    exact div_pos (List.sum_pos h hpos hne) hlen
  have hvar : 0 ≤ (h.map fun f => (f - windowAverage h) ^ 2).sum / (h.length : ℚ) := by
    apply div_nonneg _ (le_of_lt hlen)
    apply List.sum_nonneg
    intro y hy
    rcases List.mem_map.mp hy with ⟨x, _, rfl⟩
    positivity
  have hq : 0 ≤ sqrtQ ((h.map fun f => (f - windowAverage h) ^ 2).sum / (h.length : ℚ))
      / windowAverage h :=
    div_nonneg (hsq _ hvar) (le_of_lt havg)
  unfold windowStability
  constructor
  · exact le_max_left 0 _
  · exact max_le (by norm_num) (by linarith)

/-- Facts preserved by every frame: all window entries are positive and the
stored stability score lies in `[0, 1]`. -/
def StabilityInv (s : MonitorState) : Prop :=
  (∀ x ∈ s.fpsHistory, 0 < x) ∧
  0 ≤ s.metrics.fpsStability ∧ s.metrics.fpsStability ≤ 1

theorem frameStep_stabilityInv (sqrtQ : ℚ → ℚ)
    (hsq : ∀ x : ℚ, 0 ≤ x → 0 ≤ sqrtQ x)
    (s : MonitorState) (inp : FrameInput) (hr : 0 ≤ inp.fpsReading)
    (h : StabilityInv s) : StabilityInv (frameStep sqrtQ s inp) := by
  obtain ⟨hpos, h0, h1⟩ := h
  set us := updateStats sqrtQ (beginFrame s inp.beginTime) inp.endTime inp.fpsReading
    inp.mem inp.rend with hus
  have hfh : (frameStep sqrtQ s inp).fpsHistory = us.fpsHistory :=
    check_fpsHistory us inp.endTime
  have hfst : (frameStep sqrtQ s inp).metrics.fpsStability = us.metrics.fpsStability :=
    check_fpsStability us inp.endTime
  set c : ℚ := if inp.fpsReading = 0 then 60 else inp.fpsReading with hc
  have hcpos : 0 < c := by
    rw [hc]
    split
    · norm_num
    · next hne => exact lt_of_le_of_ne hr (Ne.symm hne)
  have hush : us.fpsHistory = pushHistory s.fpsHistory c := by
    rw [hus, updateStats_fpsHistory]
    rfl
  have hpos' : ∀ x ∈ pushHistory s.fpsHistory c, 0 < x := by
    intro x hx
    rcases mem_pushHistory hx with h1 | h1
    · exact hpos x h1
    · rw [h1]; exact hcpos
  refine ⟨?_, ?_⟩
  · rw [hfh, hush]
    exact hpos'
  · rw [hfst]
    rcases Nat.lt_or_ge 5 (pushHistory s.fpsHistory c).length with hlen | hlen
    · have := updateStats_stability_recompute sqrtQ (beginFrame s inp.beginTime)
        inp.endTime inp.fpsReading inp.mem inp.rend hlen
      rw [hus, this]
      exact windowStability_mem_unit sqrtQ hsq _ hpos' (pushHistory_ne_nil _ _)
    · have hk := updateStats_stability_keep sqrtQ (beginFrame s inp.beginTime)
        inp.endTime inp.fpsReading inp.mem inp.rend
        (show ¬5 < (pushHistory s.fpsHistory c).length by omega)
      rw [hus, hk]
      exact ⟨h0, h1⟩

theorem runFrames_stabilityInv (sqrtQ : ℚ → ℚ)
    (hsq : ∀ x : ℚ, 0 ≤ x → 0 ≤ sqrtQ x) :
    ∀ (inputs : List FrameInput), (∀ inp ∈ inputs, 0 ≤ inp.fpsReading) →
    ∀ s : MonitorState, StabilityInv s → StabilityInv (runFrames sqrtQ s inputs) := by
  intro inputs
  induction inputs with
  | nil => exact fun _ s h => h
  | cons a l ih =>
      intro hall s h
      have ha : 0 ≤ a.fpsReading := hall a (List.mem_cons_self a l)
      have hl : ∀ inp ∈ l, 0 ≤ inp.fpsReading :=
        fun inp hinp => hall inp (List.mem_cons_of_mem a hinp)
      exact ih hl (frameStep sqrtQ s a) (frameStep_stabilityInv sqrtQ hsq s a ha h)

/-- Facts preserved by every frame whose FPS reading is the fixed nonzero
value `v`: the whole window equals `v` and the stored stability is `1`. -/
def ConstWindow (v : ℚ) (s : MonitorState) : Prop :=
  (∀ x ∈ s.fpsHistory, x = v) ∧ s.metrics.fpsStability = 1

theorem frameStep_constWindow (sqrtQ : ℚ → ℚ) (hs0 : sqrtQ 0 = 0) (v : ℚ) (hv : v ≠ 0)
    (s : MonitorState) (inp : FrameInput) (hrv : inp.fpsReading = v)
    (h : ConstWindow v s) : ConstWindow v (frameStep sqrtQ s inp) := by
  obtain ⟨hall, hst⟩ := h
  set us := updateStats sqrtQ (beginFrame s inp.beginTime) inp.endTime inp.fpsReading
    inp.mem inp.rend with hus
  have hfh : (frameStep sqrtQ s inp).fpsHistory = us.fpsHistory :=
    check_fpsHistory us inp.endTime
  have hfst : (frameStep sqrtQ s inp).metrics.fpsStability = us.metrics.fpsStability :=
    check_fpsStability us inp.endTime
  have hcv : (if inp.fpsReading = 0 then (60 : ℚ) else inp.fpsReading) = v := by
    rw [hrv, if_neg hv]
  constructor
  · intro x hx
    rw [hfh, hus, updateStats_fpsHistory, hcv] at hx
    have hx' : x ∈ pushHistory s.fpsHistory v := hx
    rcases mem_pushHistory hx' with h1 | h1
    · exact hall x h1
    · exact h1
  · rw [hfst, hus]
    exact updateStats_stability_const sqrtQ hs0 (beginFrame s inp.beginTime)
      inp.endTime inp.fpsReading inp.mem inp.rend
      (by rw [hcv]; exact hall) hst

theorem runFrames_constWindow (sqrtQ : ℚ → ℚ) (hs0 : sqrtQ 0 = 0) (v : ℚ) (hv : v ≠ 0) :
    ∀ (inputs : List FrameInput), (∀ inp ∈ inputs, inp.fpsReading = v) →
    ∀ s : MonitorState, ConstWindow v s → ConstWindow v (runFrames sqrtQ s inputs) := by
  intro inputs
  induction inputs with
  | nil => exact fun _ s h => h
  | cons a l ih =>
      intro hall s h
      have ha : a.fpsReading = v := hall a (List.mem_cons_self a l)
      have hl : ∀ inp ∈ l, inp.fpsReading = v :=
        fun inp hinp => hall inp (List.mem_cons_of_mem a hinp)
      exact ih hl (frameStep sqrtQ s a) (frameStep_constWindow sqrtQ hs0 v hv s a ha h)

/-- C4 (amended): after `endFrame` the stored `averageFps` is the mean of the
new FPS window, and `fpsStability` is recomputed as
`max(0, 1 − sqrt(variance)/avg)` over that window exactly when the window
holds STRICTLY MORE than 5 samples — with 5 or fewer samples the previous
value (initially 1) is kept untouched.  The stored stability always lies in
`[0, 1]` along any run from a fresh monitor with nonnegative FPS readings
(given that the square root is nonnegative on nonnegative inputs), and a
constant nonzero FPS reading keeps it at exactly 1 however many frames are
fed. -/
theorem fpsStability_spec :
    (∀ (sqrtQ : ℚ → ℚ) (s : MonitorState) (now r : ℚ) (mem : Option (ℚ × ℚ))
        (rend : Option (ℕ × ℕ)),
      ((endFrame sqrtQ s now r mem rend).1.metrics.averageFps
          = windowAverage (endFrame sqrtQ s now r mem rend).1.fpsHistory) ∧
      (5 < (endFrame sqrtQ s now r mem rend).1.fpsHistory.length →
        (endFrame sqrtQ s now r mem rend).1.metrics.fpsStability
          = windowStability sqrtQ (endFrame sqrtQ s now r mem rend).1.fpsHistory) ∧
      ((endFrame sqrtQ s now r mem rend).1.fpsHistory.length ≤ 5 →
        (endFrame sqrtQ s now r mem rend).1.metrics.fpsStability
          = s.metrics.fpsStability)) ∧
    (∀ sqrtQ : ℚ → ℚ, (∀ x : ℚ, 0 ≤ x → 0 ≤ sqrtQ x) →
      ∀ (cfg : PerfSettings) (inputs : List FrameInput),
      (∀ inp ∈ inputs, 0 ≤ inp.fpsReading) →
      0 ≤ (runFrames sqrtQ (initMonitor cfg) inputs).metrics.fpsStability ∧
      (runFrames sqrtQ (initMonitor cfg) inputs).metrics.fpsStability ≤ 1) ∧
    (∀ sqrtQ : ℚ → ℚ, sqrtQ 0 = 0 → ∀ (cfg : PerfSettings) (v : ℚ), v ≠ 0 →
      ∀ inputs : List FrameInput, (∀ inp ∈ inputs, inp.fpsReading = v) →
      (runFrames sqrtQ (initMonitor cfg) inputs).metrics.fpsStability = 1) := by
  refine ⟨?_, ?_, ?_⟩
  · intro sqrtQ s now r mem rend
    have hfh : (endFrame sqrtQ s now r mem rend).1.fpsHistory
        = pushHistory s.fpsHistory (if r = 0 then 60 else r) := by
      show (checkQualityAdjustment (updateStats sqrtQ s now r mem rend) now).1.fpsHistory
        = pushHistory s.fpsHistory (if r = 0 then 60 else r)
      rw [check_fpsHistory, updateStats_fpsHistory]
    have hst : (endFrame sqrtQ s now r mem rend).1.metrics.fpsStability
        = (updateStats sqrtQ s now r mem rend).metrics.fpsStability :=
      check_fpsStability (updateStats sqrtQ s now r mem rend) now
    refine ⟨?_, ?_, ?_⟩
    · have hav : (endFrame sqrtQ s now r mem rend).1.metrics.averageFps
          = (updateStats sqrtQ s now r mem rend).metrics.averageFps :=
        check_averageFps (updateStats sqrtQ s now r mem rend) now
      rw [hav, updateStats_averageFps, hfh]
      rfl
    · intro hlen
      rw [hfh] at hlen
      rw [hst, updateStats_stability_recompute sqrtQ s now r mem rend hlen, hfh]
    · intro hlen
      rw [hfh] at hlen
      rw [hst, updateStats_stability_keep sqrtQ s now r mem rend (by omega)]
  · intro sqrtQ hsq cfg inputs hall
    have hinit : StabilityInv (initMonitor cfg) := by
      refine ⟨?_, ?_, ?_⟩
      · intro x hx
        simp [initMonitor] at hx
      · show (0 : ℚ) ≤ 1
        norm_num
      · show (1 : ℚ) ≤ 1
        norm_num
    exact (runFrames_stabilityInv sqrtQ hsq inputs hall (initMonitor cfg) hinit).2
  · intro sqrtQ hs0 cfg v hv inputs hall
    have hinit : ConstWindow v (initMonitor cfg) := by
      constructor
      · intro x hx
        simp [initMonitor] at hx
      · rfl
    exact (runFrames_constWindow sqrtQ hs0 v hv inputs hall (initMonitor cfg) hinit).2

/-- Witness for C4 (amended): one frame with a constant reading of 60 on a
fresh monitor leaves the stability score at exactly 1. -/
theorem fpsStability_spec_witness :
    (runFrames (fun _ => 0) (initMonitor defaultSettings)
        [⟨0, 0, 60, none, none⟩]).metrics.fpsStability = 1 := by
  refine fpsStability_spec.2.2 (fun _ => 0) rfl defaultSettings 60 (by norm_num)
    [⟨0, 0, 60, none, none⟩] ?_
  intro inp hinp
  rw [List.mem_singleton] at hinp
  rw [hinp]

theorem pushHistory_small (h : List ℚ) (x : ℚ) (hl : h.length < historySize) :
    pushHistory h x = h ++ [x] := by
  unfold pushHistory
  dsimp only
  rw [if_neg]
  simp
  omega

/-- Counterexample to C4 as stated: after exactly 5 frames with FPS readings
`48, 48, 48, 48, 108` (so ≥ 5 samples exist in the window), the stored
`fpsStability` is still the initial `1`, because the recompute branch is
guarded by `fpsHistory.length > 5`, not `≥ 5`; the spec's formula over the
same window evaluates to `max(0, 1 − 24/60) = 3/5 ≠ 1`. -/
theorem stability_threshold_counterexample :
    (runFrames (fun _ => 0) (initMonitor defaultSettings)
        [⟨0, 0, 48, none, none⟩, ⟨0, 0, 48, none, none⟩, ⟨0, 0, 48, none, none⟩,
         ⟨0, 0, 48, none, none⟩, ⟨0, 0, 108, none, none⟩]).fpsHistory.length = 5 ∧
    (runFrames (fun _ => 0) (initMonitor defaultSettings)
        [⟨0, 0, 48, none, none⟩, ⟨0, 0, 48, none, none⟩, ⟨0, 0, 48, none, none⟩,
         ⟨0, 0, 48, none, none⟩, ⟨0, 0, 108, none, none⟩]).metrics.fpsStability = 1 ∧
    specFpsStability
      (runFrames (fun _ => 0) (initMonitor defaultSettings)
        [⟨0, 0, 48, none, none⟩, ⟨0, 0, 48, none, none⟩, ⟨0, 0, 48, none, none⟩,
         ⟨0, 0, 48, none, none⟩, ⟨0, 0, 108, none, none⟩]).fpsHistory ≠ 1 := by
  have key : ∀ (s : MonitorState) (r : ℚ), r ≠ 0 →
      s.lastAdjustmentTime = 0 → s.settings = defaultSettings →
      s.fpsHistory.length < historySize →
      (frameStep (fun _ => 0) s ⟨0, 0, r, none, none⟩).fpsHistory
          = s.fpsHistory ++ [r] ∧
      ((frameStep (fun _ => 0) s ⟨0, 0, r, none, none⟩).fpsHistory.length ≤ 5 →
        (frameStep (fun _ => 0) s ⟨0, 0, r, none, none⟩).metrics.fpsStability
          = s.metrics.fpsStability) ∧
      (frameStep (fun _ => 0) s ⟨0, 0, r, none, none⟩).lastAdjustmentTime = 0 ∧
      (frameStep (fun _ => 0) s ⟨0, 0, r, none, none⟩).settings = defaultSettings := by
    intro s r hr hla hset hlen
    set us := updateStats (fun _ => 0) (beginFrame s 0) 0 r none none with hus
    have hfh : (frameStep (fun _ => 0) s ⟨0, 0, r, none, none⟩).fpsHistory
        = us.fpsHistory := check_fpsHistory us 0
    have hfst : (frameStep (fun _ => 0) s ⟨0, 0, r, none, none⟩).metrics.fpsStability
        = us.metrics.fpsStability := check_fpsStability us 0
    have hush : us.fpsHistory = s.fpsHistory ++ [r] := by
      rw [hus, updateStats_fpsHistory]
      show pushHistory s.fpsHistory (if r = 0 then 60 else r) = s.fpsHistory ++ [r]
      rw [if_neg hr]
      exact pushHistory_small s.fpsHistory r hlen
    refine ⟨by rw [hfh, hush], ?_, ?_, ?_⟩
    · intro hle
      rw [hfh, hush] at hle
      rw [hfst, hus]
      have hk := updateStats_stability_keep (fun _ => 0) (beginFrame s 0) 0 r none none
        (by
          show ¬5 < (pushHistory s.fpsHistory (if r = 0 then 60 else r)).length
          rw [if_neg hr]
          rw [pushHistory_small s.fpsHistory r hlen]
          omega)
      rw [hk]
      rfl
    · show (checkQualityAdjustment us 0).1.lastAdjustmentTime = 0
      have hla' : us.lastAdjustmentTime = 0 := by
        rw [hus, updateStats_lastAdjustmentTime]
        exact hla
      have hset' : us.settings = defaultSettings := by
        rw [hus, updateStats_settings]
        exact hset
      rw [check_early us 0 (by rw [hla', hset']; norm_num [defaultSettings])]
      exact hla'
    · show (checkQualityAdjustment us 0).1.settings = defaultSettings
      have hla' : us.lastAdjustmentTime = 0 := by
        rw [hus, updateStats_lastAdjustmentTime]
        exact hla
      have hset' : us.settings = defaultSettings := by
        rw [hus, updateStats_settings]
        exact hset
      rw [check_early us 0 (by rw [hla', hset']; norm_num [defaultSettings])]
      exact hset'
  set s0 := initMonitor defaultSettings with hs0
  set s1 := frameStep (fun _ => 0) s0 ⟨0, 0, 48, none, none⟩ with hs1
  set s2 := frameStep (fun _ => 0) s1 ⟨0, 0, 48, none, none⟩ with hs2
  set s3 := frameStep (fun _ => 0) s2 ⟨0, 0, 48, none, none⟩ with hs3
  set s4 := frameStep (fun _ => 0) s3 ⟨0, 0, 48, none, none⟩ with hs4
  set s5 := frameStep (fun _ => 0) s4 ⟨0, 0, 108, none, none⟩ with hs5
  have hrun : runFrames (fun _ => 0) s0
      [⟨0, 0, 48, none, none⟩, ⟨0, 0, 48, none, none⟩, ⟨0, 0, 48, none, none⟩,
       ⟨0, 0, 48, none, none⟩, ⟨0, 0, 108, none, none⟩] = s5 := rfl
  have h0 : s0.fpsHistory = [] := rfl
  have h0la : s0.lastAdjustmentTime = 0 := rfl
  have h0set : s0.settings = defaultSettings := rfl
  have k1 := key s0 48 (by norm_num) h0la h0set (by rw [h0]; norm_num [historySize])
  have h1 : s1.fpsHistory = [48] := by rw [hs1, k1.1, h0]; rfl
  have k2 := key s1 48 (by norm_num) k1.2.2.1 k1.2.2.2 (by rw [h1]; norm_num [historySize])
  have h2 : s2.fpsHistory = [48, 48] := by rw [hs2, k2.1, h1]; rfl
  have k3 := key s2 48 (by norm_num) k2.2.2.1 k2.2.2.2 (by rw [h2]; norm_num [historySize])
  have h3 : s3.fpsHistory = [48, 48, 48] := by rw [hs3, k3.1, h2]; rfl
  have k4 := key s3 48 (by norm_num) k3.2.2.1 k3.2.2.2 (by rw [h3]; norm_num [historySize])
  have h4 : s4.fpsHistory = [48, 48, 48, 48] := by rw [hs4, k4.1, h3]; rfl
  have k5 := key s4 108 (by norm_num) k4.2.2.1 k4.2.2.2 (by rw [h4]; norm_num [historySize])
  have h5 : s5.fpsHistory = [48, 48, 48, 48, 108] := by rw [hs5, k5.1, h4]; rfl
  have hst0 : s0.metrics.fpsStability = 1 := rfl
  have hst1 : s1.metrics.fpsStability = 1 := by
    rw [hs1, k1.2.1 (by rw [← hs1, h1]; norm_num)]; exact hst0
  have hst2 : s2.metrics.fpsStability = 1 := by
    rw [hs2, k2.2.1 (by rw [← hs2, h2]; norm_num)]; exact hst1
  have hst3 : s3.metrics.fpsStability = 1 := by
    rw [hs3, k3.2.1 (by rw [← hs3, h3]; norm_num)]; exact hst2
  have hst4 : s4.metrics.fpsStability = 1 := by
    rw [hs4, k4.2.1 (by rw [← hs4, h4]; norm_num)]; exact hst3
  have hst5 : s5.metrics.fpsStability = 1 := by
    rw [hs5, k5.2.1 (by rw [← hs5, h5]; norm_num)]; exact hst4
  refine ⟨by rw [hrun, h5]; rfl, by rw [hrun]; exact hst5, ?_⟩
  rw [hrun, h5]
  have hsum : ([48, 48, 48, 48, 108] : List ℚ).sum = 300 := by
    norm_num [List.sum_cons]
  have hspec : specFpsStability [48, 48, 48, 48, 108] = 3/5 := by
    unfold specFpsStability
    rw [hsum]
    have havg : (((300 : ℚ) : ℝ)) / ((([48, 48, 48, 48, 108] : List ℚ).length : ℕ) : ℝ)
        = 60 := by
      norm_num
    have hvar : (([48, 48, 48, 48, 108] : List ℚ).map fun f =>
        ((f : ℝ) - ((300 : ℚ) : ℝ) / ((([48, 48, 48, 48, 108] : List ℚ).length : ℕ) : ℝ)) ^ 2).sum
        / ((([48, 48, 48, 48, 108] : List ℚ).length : ℕ) : ℝ) = 576 := by
      norm_num [List.sum_cons]
    rw [hvar, havg]
    rw [show (576 : ℝ) = 24 ^ 2 by norm_num,
      Real.sqrt_sq (by norm_num : (0 : ℝ) ≤ 24)]
    norm_num
  rw [hspec]
  norm_num

end MusicViz
